import Mathlib

/-!
Verification of the solar-geometry engine and TTL cache of the Sky Globe
application (`src/business/time_service.py`, `src/data/cache_manager.py`).

The Python code is shallowly embedded:
* calendar timestamps become a `DateTime` structure of integers;
* exact decimal/float literals of the source become rationals, and the purely
  arithmetic `calculate_julian_day` is modelled over `ℚ`;
* the trigonometric pipeline is modelled over `ℝ` with Mathlib's `Real.sin`,
  `Real.cos`, `Real.arcsin`, `Real.arccos`, `Real.arctan`;
* Python `%` on numbers is floor-based modulo (`rmod` below), `int()` is
  truncation toward zero (`truncInt` below), and `datetime.replace` validates
  its field arguments, returning `none` (a raised `ValueError`) when a field
  is out of range;
* the in-memory TTL cache becomes an explicit state record threaded through
  the operations, with the wall clock (`time.time()`) passed as an argument.
-/

/-- A calendar timestamp, mirroring the fields of a (UTC) Python `datetime`
used by the code: year, month, day, hour, minute, second. -/
structure DateTime where
  year : Int
  month : Int
  day : Int
  hour : Int
  minute : Int
  second : Int
deriving DecidableEq

/-- Gregorian leap-year rule, as implemented by Python's `calendar`/`datetime`. -/
def isLeapYear (y : Int) : Bool :=
  y % 4 == 0 && (y % 100 != 0 || y % 400 == 0)

/-- Number of days in a month of the proleptic Gregorian calendar. -/
def daysInMonth (y m : Int) : Int :=
  if m = 2 then (if isLeapYear y then 29 else 28)
  else if m = 4 ∨ m = 6 ∨ m = 9 ∨ m = 11 then 30
  else 31

/-- `dt + timedelta(days=1)`: the calendar day after `dt`, same time of day. -/
def nextDay (dt : DateTime) : DateTime :=
  if dt.day < daysInMonth dt.year dt.month then { dt with day := dt.day + 1 }
  else if dt.month < 12 then { dt with month := dt.month + 1, day := 1 }
  else { dt with year := dt.year + 1, month := 1, day := 1 }

/-- `dt - timedelta(days=1)`: the calendar day before `dt`, same time of day. -/
def prevDay (dt : DateTime) : DateTime :=
  if 1 < dt.day then { dt with day := dt.day - 1 }
  else if 1 < dt.month then
    { dt with month := dt.month - 1, day := daysInMonth dt.year (dt.month - 1) }
  else { dt with year := dt.year - 1, month := 12, day := 31 }

/-- A valid UTC calendar instant (the inputs `TimeService` receives). -/
def DateTime.Valid (dt : DateTime) : Prop :=
  1 ≤ dt.month ∧ dt.month ≤ 12 ∧ 1 ≤ dt.day ∧ dt.day ≤ daysInMonth dt.year dt.month ∧
  0 ≤ dt.hour ∧ dt.hour ≤ 23 ∧ 0 ≤ dt.minute ∧ dt.minute ≤ 59 ∧
  0 ≤ dt.second ∧ dt.second ≤ 59

instance (dt : DateTime) : Decidable dt.Valid := by
  unfold DateTime.Valid; infer_instance

/-- `TimeService.calculate_julian_day`, translated literally from
`src/business/time_service.py` lines 91-124.  The decimal literals
`365.25`, `30.6001`, `1524.5` become exact rationals; Python's integer
floor division `//` becomes `Int.fdiv`.  (Note: the source, unlike the
standard algorithm, does NOT truncate `365.25 * (year + 4716)` nor
`30.6001 * (month + 1)` to integers.) -/
def calculate_julian_day (dt : DateTime) : ℚ :=
  let year : Int := if dt.month ≤ 2 then dt.year - 1 else dt.year
  let month : Int := if dt.month ≤ 2 then dt.month + 12 else dt.month
  let a : Int := Int.fdiv year 100
  let b : Int := 2 - a + Int.fdiv a 4
  let jd : ℚ := (36525 : ℚ) / 100 * ((year : ℚ) + 4716) +
    (306001 : ℚ) / 10000 * ((month : ℚ) + 1) + (dt.day : ℚ) + (b : ℚ) - 3049 / 2
  jd + ((dt.hour : ℚ) + (dt.minute : ℚ) / 60 + (dt.second : ℚ) / 3600) / 24

/-- `dt.replace(hour=12, minute=0, second=0, microsecond=0)` -/
def atNoon (dt : DateTime) : DateTime :=
  { dt with hour := 12, minute := 0, second := 0 }

/-- `dt.replace(hour=0, minute=0, second=0, microsecond=0)` -/
def atMidnight (dt : DateTime) : DateTime :=
  { dt with hour := 0, minute := 0, second := 0 }

/-- Python `int()` on a real number: truncation toward zero. -/
noncomputable def truncInt (x : ℝ) : Int :=
  if 0 ≤ x then ⌊x⌋ else ⌈x⌉

/-- Python `x % m` for real `x` and positive real `m`: floor-based modulo. -/
noncomputable def rmod (x m : ℝ) : ℝ :=
  x - m * (⌊x / m⌋ : ℤ)

/-! ## TTL cache (`src/data/cache_manager.py`)

The cache state is the record of mutable fields of `CacheManager`: the
`cache` dict (an insertion-ordered association list keyed by strings), the
`ttl_config` mapping, and the four statistics counters.  `time.time()` is a
rational argument `now`.  `json.dumps` and `hashlib.md5(...).hexdigest()` are
external library collaborators: the embedding is parameterised by functions
`dumps` (serialising the key data) and `md5hex` (the hex digest); every
theorem below holds for arbitrary such functions (md5 digests always have 32
hex characters, which is taken as a hypothesis where it matters). -/

namespace CacheManager

/-- The `ttl_config` dict built in `CacheManager.__init__`: it has exactly the
keys `'weather'`, `'geocoding'`, `'cities'`, `'default'` (weather/geocoding
values are injected from `config.get_cache_ttl`, hence arbitrary here). -/
structure TTLConfig where
  weather : ℚ
  geocoding : ℚ
  cities : ℚ
  default : ℚ
deriving DecidableEq

/-- `self.ttl_config.get(cache_type, self.ttl_config['default'])`. -/
def TTLConfig.lookup (c : TTLConfig) (cache_type : String) : ℚ :=
  if cache_type = "weather" then c.weather
  else if cache_type = "geocoding" then c.geocoding
  else if cache_type = "cities" then c.cities
  else if cache_type = "default" then c.default
  else c.default

/-- The mutable state of a `CacheManager` instance, holding values of type `α`.
Each entry of `cache` is `(key, (value, timestamp))`. -/
structure CacheState (α : Type) where
  cache : List (String × α × ℚ)
  ttl_config : TTLConfig
  hits : ℕ
  misses : ℕ
  sets : ℕ
  evictions : ℕ

/-- The data serialised by `_generate_key`:
`{'args': args, 'kwargs': sorted(kwargs.items())}` (value type `β`). -/
structure KeyData (β : Type) where
  args : List β
  kwargs : List (String × β)

/-- `sorted(kwargs.items())`: the named arguments sorted by name (Python sorts
the `(name, value)` tuples; names of a dict are distinct, so the order is the
name order). -/
def sortKwargs {β : Type} (kwargs : List (String × β)) : List (String × β) :=
  kwargs.mergeSort (fun a b => a.1 ≤ b.1)

/-- `CacheManager._generate_key` (lines 43-65): serialise
`{'args': args, 'kwargs': sorted(kwargs.items())}` with the external `dumps`,
hash with the external `md5hex`, and prefix with the category:
`f"{prefix}:{key_hash}"`. -/
def generate_key {β : Type} (dumps : KeyData β → String) (md5hex : String → String)
    (pre : String) (args : List β) (kwargs : List (String × β)) : String :=
  pre ++ ":" ++ md5hex (dumps ⟨args, sortKwargs kwargs⟩)

/-- `CacheManager._is_expired` (lines 67-79): `time.time() - timestamp > ttl`
with the TTL looked up from the *current* `ttl_config` by category. -/
def is_expired (cfg : TTLConfig) (now timestamp : ℚ) (cache_type : String) : Bool :=
  now - timestamp > cfg.lookup cache_type

/-- Python `s.startswith(pre)`: `pre` is a prefix of the character sequence
of `s`. -/
def strStartsWith (s pre : String) : Bool :=
  pre.data.isPrefixOf s.data

/-- Dict lookup `key in self.cache` / `self.cache[key]`. -/
def dictFind {α : Type} (l : List (String × α × ℚ)) (key : String) : Option (α × ℚ) :=
  l.lookup key

/-- Dict assignment `self.cache[key] = v`: overwrite in place if the key is
present, else append. -/
def dictInsert {α : Type} (l : List (String × α × ℚ)) (key : String) (v : α × ℚ) :
    List (String × α × ℚ) :=
  if l.any (fun e => e.1 == key) then
    l.map (fun e => if e.1 == key then (key, v) else e)
  else l ++ [(key, v)]

/-- Dict deletion `del self.cache[key]`. -/
def dictErase {α : Type} (l : List (String × α × ℚ)) (key : String) :
    List (String × α × ℚ) :=
  l.filter (fun e => ¬ e.1 = key)

/-- Body of `CacheManager.get` (lines 81-109) after the key has been derived:
hit (value fresh), expiry-eviction then miss, or plain miss. -/
def get_with_key {α : Type} (s : CacheState α) (cache_type key : String) (now : ℚ) :
    Option α × CacheState α :=
  match dictFind s.cache key with
  | some (data, timestamp) =>
    if ¬ is_expired s.ttl_config now timestamp cache_type then
      (some data, { s with hits := s.hits + 1 })
    else
      (none, { s with cache := dictErase s.cache key,
                      evictions := s.evictions + 1,
                      misses := s.misses + 1 })
  | none => (none, { s with misses := s.misses + 1 })

/-- `CacheManager.get` (lines 81-109). -/
def get {α β : Type} (dumps : KeyData β → String) (md5hex : String → String)
    (s : CacheState α) (cache_type : String) (args : List β)
    (kwargs : List (String × β)) (now : ℚ) : Option α × CacheState α :=
  get_with_key s cache_type (generate_key dumps md5hex cache_type args kwargs) now

/-- Body of `CacheManager.set` (lines 111-124) after the key has been derived. -/
def set_with_key {α : Type} (s : CacheState α) (key : String) (value : α) (now : ℚ) :
    CacheState α :=
  { s with cache := dictInsert s.cache key (value, now), sets := s.sets + 1 }

/-- `CacheManager.set` (lines 111-124). -/
def set {α β : Type} (dumps : KeyData β → String) (md5hex : String → String)
    (s : CacheState α) (cache_type : String) (value : α) (args : List β)
    (kwargs : List (String × β)) (now : ℚ) : CacheState α :=
  set_with_key s (generate_key dumps md5hex cache_type args kwargs) value now

/-- Body of `CacheManager.delete` (lines 126-144) after the key has been
derived: remove the entry if present, returning whether it existed. -/
def delete_with_key {α : Type} (s : CacheState α) (key : String) :
    Bool × CacheState α :=
  match dictFind s.cache key with
  | some _ => (true, { s with cache := dictErase s.cache key })
  | none => (false, s)

/-- `CacheManager.delete` (lines 126-144). -/
def delete {α β : Type} (dumps : KeyData β → String) (md5hex : String → String)
    (s : CacheState α) (cache_type : String) (args : List β)
    (kwargs : List (String × β)) : Bool × CacheState α :=
  delete_with_key s (generate_key dumps md5hex cache_type args kwargs)

/-- `CacheManager.clear_by_type` (lines 146-163): delete every entry whose key
starts with `f"{cache_type}:"`, returning how many were deleted. -/
def clear_by_type {α : Type} (s : CacheState α) (cache_type : String) :
    Nat × CacheState α :=
  let pre := cache_type ++ ":"
  let keys_to_delete := s.cache.filter (fun e => strStartsWith e.1 pre)
  (keys_to_delete.length,
   { s with cache := s.cache.filter (fun e => ¬ strStartsWith e.1 pre) })

/-- `key.split(':', 1)[0]`: the part of the key before the first `':'`. -/
def keyCategory (key : String) : String :=
  key.takeWhile (fun c => c ≠ ':')

/-- `CacheManager.cleanup_expired` (lines 183-203): sweep every entry whose
age exceeds the TTL of the category recovered from its key; the eviction
counter grows by the number of removed entries. -/
def cleanup_expired {α : Type} (s : CacheState α) (now : ℚ) :
    Nat × CacheState α :=
  let expired_keys := s.cache.filter
    (fun e => is_expired s.ttl_config now e.2.2 (keyCategory e.1))
  let kept := s.cache.filter
    (fun e => ¬ is_expired s.ttl_config now e.2.2 (keyCategory e.1))
  (expired_keys.length,
   { s with cache := kept, evictions := s.evictions + expired_keys.length })

end CacheManager

/-! ## Astronomy engine (`src/business/time_service.py`)

The trigonometric pipeline is embedded over `ℝ`.  The memoisation through the
cache manager is value-transparent (a cached entry is a previously computed
result of the same pure function), so the functions below model the pure
computation.  The `try/except` fallbacks of the source are modelled exactly
where a Python exception can occur under real-number semantics:
`ZeroDivisionError` where a divisor is exactly zero and `ValueError` where
`datetime.replace` receives an out-of-range field; `math.asin`/`math.acos`
domain errors cannot occur on the guarded arguments. -/

/-- `math.radians`. -/
noncomputable def radians (x : ℝ) : ℝ := x * (Real.pi / 180)

/-- `math.degrees`. -/
noncomputable def degrees (x : ℝ) : ℝ := x * (180 / Real.pi)

/-- Python `round(x)`: round half to even (banker's rounding). -/
noncomputable def pyRound (x : ℝ) : ℤ :=
  if Int.fract x < 1 / 2 then ⌊x⌋
  else if 1 / 2 < Int.fract x then ⌊x⌋ + 1
  else if Even ⌊x⌋ then ⌊x⌋ else ⌊x⌋ + 1

/-- Python `round(x, 2)`. -/
noncomputable def round2 (x : ℝ) : ℝ := (pyRound (x * 100) : ℝ) / 100

/-- `math.atan2(y, x)`. -/
noncomputable def atan2 (y x : ℝ) : ℝ :=
  if 0 < x then Real.arctan (y / x)
  else if x < 0 ∧ 0 ≤ y then Real.arctan (y / x) + Real.pi
  else if x < 0 then Real.arctan (y / x) - Real.pi
  else if 0 < y then Real.pi / 2
  else if y < 0 then -(Real.pi / 2)
  else 0

/-- `TimeService.calculate_solar_declination` (lines 126-151); the julian day
is received as a real number, `EARTH_OBLIQUITY = 23.44`. -/
noncomputable def calculate_solar_declination (julian_day : ℝ) : ℝ :=
  let n := julian_day - 2451545.0
  let L := rmod (280.460 + 0.9856474 * n) 360
  let g := radians (rmod (357.528 + 0.9856003 * n) 360)
  let lambda_sun := radians (L + 1.915 * Real.sin g + 0.020 * Real.sin (2 * g))
  degrees (Real.arcsin (Real.sin (radians 23.44) * Real.sin lambda_sun))

/-- `TimeService.calculate_hour_angle` (lines 153-174). -/
noncomputable def calculate_hour_angle (longitude julian_day : ℝ) : ℝ :=
  let gha := rmod (280.460618 + 360.98564736629 * (julian_day - 2451545.0)) 360
  let lha := rmod (gha + longitude) 360
  if lha > 180 then lha - 360 else lha

/-- The (unrounded) solar elevation in degrees computed inside
`TimeService.calculate_sun_position` (lines 211-216). -/
noncomputable def elevationRaw (latitude longitude : ℝ) (dt : DateTime) : ℝ :=
  let jd : ℝ := ((calculate_julian_day dt : ℚ) : ℝ)
  let declination := radians (calculate_solar_declination jd)
  let hour_angle := radians (calculate_hour_angle longitude jd)
  let lat_rad := radians latitude
  degrees (Real.arcsin (Real.sin lat_rad * Real.sin declination +
    Real.cos lat_rad * Real.cos declination * Real.cos hour_angle))

/-- The result dict of `calculate_sun_position`. -/
structure SunPosition where
  elevation : ℝ
  azimuth : ℝ
  zenith : ℝ
  declination : ℝ
  hour_angle : ℝ
  air_mass : Option ℝ
  is_daylight : Bool
  julian_day : ℝ

/-- `TimeService.calculate_sun_position` (lines 176-262).  The reported
`elevation` is `round(elevation, 2)` while `is_daylight` compares the
*unrounded* elevation with -6.  `air_mass = inf` (sun below horizon) is the
`none` value.  Under real-number semantics the `except` fallback (lines
251-262) is unreachable: the `asin`/`atan2` arguments are always in domain and
`1/cos(zenith)` is only evaluated for `zenith < 85`. -/
noncomputable def calculate_sun_position (latitude longitude : ℝ) (dt : DateTime) :
    SunPosition :=
  let jd : ℝ := ((calculate_julian_day dt : ℚ) : ℝ)
  let declination := radians (calculate_solar_declination jd)
  let hour_angle := radians (calculate_hour_angle longitude jd)
  let lat_rad := radians latitude
  let elevation := elevationRaw latitude longitude dt
  let azimuth_rad := atan2 (Real.sin hour_angle)
    (Real.cos hour_angle * Real.sin lat_rad - Real.tan declination * Real.cos lat_rad)
  let azimuth := rmod (degrees azimuth_rad + 180) 360
  let zenith := 90 - elevation
  let air_mass : Option ℝ :=
    if 0 < elevation then
      some (round2 (if zenith < 85 then 1 / Real.cos (radians zenith) else 38))
    else none
  { elevation := round2 elevation
    azimuth := round2 azimuth
    zenith := round2 zenith
    declination := round2 (degrees declination)
    hour_angle := round2 (degrees hour_angle)
    air_mass := air_mass
    is_daylight := elevation > -6
    julian_day := jd }

/-- One terminator point (lines 313-343): solve `cos(lat) = -tan(dec)/tan(ha)`
for the latitude where the solar elevation is zero.  Python raises
`ZeroDivisionError` exactly when `math.tan(hour_angle)` is zero, landing in
the `except` fallback (lines 336-343); `math.acos` is guarded to `[-1, 1]`,
so no `ValueError` can occur. -/
noncomputable def terminatorLatitude (declination hour_angle : ℝ) : ℝ :=
  if Real.tan hour_angle = 0 then
    if |declination| < Real.pi / 4 then 0
    else if 0 < declination then 90 else -90
  else if |(-Real.tan declination / Real.tan hour_angle)| ≤ 1 then
    (if -Real.tan declination / Real.tan hour_angle < 0 then
      -degrees (Real.arccos |(-Real.tan declination / Real.tan hour_angle)|)
    else degrees (Real.arccos |(-Real.tan declination / Real.tan hour_angle)|))
  else if 0 < declination then 90 - |degrees declination|
  else -90 + |degrees declination|

/-- `data_models.DayNightBoundary`. -/
structure DayNightBoundary where
  coordinates : List (ℝ × ℝ)
  calculated_at : DateTime

/-- `TimeService.calculate_day_night_boundary` (lines 279-356): `num_points`
longitude samples `-180 + 360*i/num_points`, each paired with the terminator
latitude for that longitude. -/
noncomputable def calculate_day_night_boundary (dt : DateTime) (num_points : ℕ) :
    DayNightBoundary :=
  let jd : ℝ := ((calculate_julian_day dt : ℚ) : ℝ)
  let declination := radians (calculate_solar_declination jd)
  { coordinates := (List.range num_points).map (fun (i : ℕ) =>
      let longitude : ℝ := -180 + 360 * (i : ℝ) / (num_points : ℝ)
      let hour_angle := radians (calculate_hour_angle longitude jd)
      (longitude, terminatorLatitude declination hour_angle))
    calculated_at := dt }

/-- The result dict of `calculate_sunrise_sunset`; the `daylight_hours` key is
missing (`none`) in the polar and error returns. -/
structure SunriseSunset where
  sunrise : Option DateTime
  sunset : Option DateTime
  polar_day : Bool
  polar_night : Bool
  daylight_hours : Option ℝ

/-- The polar-day return (line 392). -/
def polarDayResult : SunriseSunset :=
  { sunrise := none, sunset := none, polar_day := true, polar_night := false,
    daylight_hours := none }

/-- The polar-night return (line 395). -/
def polarNightResult : SunriseSunset :=
  { sunrise := none, sunset := none, polar_day := false, polar_night := true,
    daylight_hours := none }

/-- The `except Exception` return (line 436): no times, both flags false. -/
def errorResult : SunriseSunset :=
  { sunrise := none, sunset := none, polar_day := false, polar_night := false,
    daylight_hours := none }

/-- `datetime.replace(hour=h, minute=m, second=s, microsecond=0)` with
Python's field validation: an out-of-range field raises `ValueError` (`none`). -/
def dtReplaceHMS (dt : DateTime) (h m s : Int) : Option DateTime :=
  if 0 ≤ h ∧ h ≤ 23 ∧ 0 ≤ m ∧ m ≤ 59 ∧ 0 ≤ s ∧ s ≤ 59 then
    some { dt with hour := h, minute := m, second := s }
  else none

/-- `decimal_hour_to_datetime` (lines 408-421).  `int()` truncates toward
zero, so for a negative fractional `decimal_hour` the computed `minutes` and
`seconds` are negative and `replace` raises `ValueError` (`none`). -/
noncomputable def decimal_hour_to_datetime (decimal_hour : ℝ) (base_date : DateTime) :
    Option DateTime :=
  let hours := truncInt decimal_hour
  let minutes := truncInt ((decimal_hour - hours) * 60)
  let seconds := truncInt (((decimal_hour - hours) * 60 - minutes) * 60)
  if 24 ≤ hours then dtReplaceHMS (nextDay base_date) (hours - 24) minutes seconds
  else if hours < 0 then dtReplaceHMS (prevDay base_date) (hours + 24) minutes seconds
  else dtReplaceHMS base_date hours minutes seconds

/-- `cos_hour_angle` as computed by `calculate_sunrise_sunset` (lines 374-386):
declination at local noon of the date, refraction constant -0.833°. -/
noncomputable def sunriseCosHourAngle (latitude : ℝ) (date : DateTime) : ℝ :=
  let jd : ℝ := ((calculate_julian_day (atNoon date) : ℚ) : ℝ)
  let declination := radians (calculate_solar_declination jd)
  let lat_rad := radians latitude
  (Real.sin (radians (-0.833)) - Real.sin lat_rad * Real.sin declination) /
    (Real.cos lat_rad * Real.cos declination)

/-- Lines 388-432 of `calculate_sunrise_sunset`, as a function of the computed
`cos_hour_angle`: the polar branches, or the clock-time conversion.  When a
conversion raises `ValueError` (`none`), the enclosing `except` (lines
434-436) returns `errorResult`. -/
noncomputable def sunriseSunsetFromCos (cos_hour_angle longitude : ℝ) (date : DateTime) :
    SunriseSunset :=
  if 1 < |cos_hour_angle| then
    if cos_hour_angle < -1 then polarDayResult else polarNightResult
  else
    let hour_angle := degrees (Real.arccos cos_hour_angle)
    let solar_noon := 12 - longitude / 15
    let sunrise_hour := solar_noon - hour_angle / 15
    let sunset_hour := solar_noon + hour_angle / 15
    match decimal_hour_to_datetime sunrise_hour (atMidnight date),
          decimal_hour_to_datetime sunset_hour (atMidnight date) with
    | some sunrise, some sunset =>
      { sunrise := some sunrise, sunset := some sunset, polar_day := false,
        polar_night := false,
        daylight_hours := some (round2 (sunset_hour - sunrise_hour)) }
    | _, _ => errorResult

/-- `TimeService.calculate_sunrise_sunset` (lines 358-436). -/
noncomputable def calculate_sunrise_sunset (latitude longitude : ℝ) (date : DateTime) :
    SunriseSunset :=
  sunriseSunsetFromCos (sunriseCosHourAngle latitude date) longitude date

/-! ## Concrete instants and example cache configurations used in the
witnesses and counterexamples. -/

/-- 2024-01-31 00:00:00 UTC. -/
def jan31 : DateTime := ⟨2024, 1, 31, 0, 0, 0⟩

/-- 2024-02-01 00:00:00 UTC. -/
def feb1 : DateTime := ⟨2024, 2, 1, 0, 0, 0⟩

/-- The June solstice 2024 (2024-06-20), at noon UTC. -/
def juneSolstice2024 : DateTime := ⟨2024, 6, 20, 12, 0, 0⟩

/-- The December solstice 2024 (2024-12-21), at noon UTC. -/
def decemberSolstice2024 : DateTime := ⟨2024, 12, 21, 12, 0, 0⟩

/-- The March equinox 2024 (2024-03-20), at noon UTC. -/
def equinox2024 : DateTime := ⟨2024, 3, 20, 12, 0, 0⟩

/-- A concrete serialiser for key data with `ℕ` values (stand-in for
`json.dumps` in concrete examples). -/
def exampleDumps : CacheManager.KeyData ℕ → String := fun _ => "kd"

/-- A concrete 32-character digest function (stand-in for md5 in concrete
examples). -/
def exampleHash : String → String := fun _ => "00000000000000000000000000000000"

/-- The key the cache derives for category `"weather"` with no arguments,
under the example serialiser/hash. -/
def exampleKey : String := CacheManager.generate_key exampleDumps exampleHash "weather" [] []

/-- A cache holding one `"weather"` entry written at time 0, with the weather
TTL configured to 60 seconds. -/
def exampleState : CacheManager.CacheState ℕ :=
  { cache := [(exampleKey, 7, 0)], ttl_config := ⟨60, 3600, 86400, 300⟩,
    hits := 0, misses := 0, sets := 0, evictions := 0 }

/-- The key the cache derives for the colon-containing category `"a:b"`. -/
def colonKey : String := CacheManager.generate_key exampleDumps exampleHash "a:b" [] []

/-- A cache holding one entry of category `"a:b"` written at time 0. -/
def colonState : CacheManager.CacheState ℕ :=
  { cache := [(colonKey, 5, 0)], ttl_config := ⟨600, 3600, 86400, 300⟩,
    hits := 0, misses := 0, sets := 0, evictions := 0 }

/-- A serialiser that spells out the positional arguments (so that distinct
argument lists yield distinct keys in the examples). -/
def natDumps : CacheManager.KeyData ℕ → String :=
  fun kd => (kd.args.map Nat.repr).foldl String.append ""

/-- The identity digest (so that distinct serialisations yield distinct keys
in the examples). -/
def idHash : String → String := fun s => s

/-- The empty cache with the default TTL configuration of `__init__`
(weather 600s, geocoding 3600s, cities 86400s, default 300s). -/
def emptyState : CacheManager.CacheState ℕ :=
  { cache := [], ttl_config := ⟨600, 3600, 86400, 300⟩,
    hits := 0, misses := 0, sets := 0, evictions := 0 }

/-- Two categories populated with 5 entries each (the §8 scenario of the
spec), all written at time 0. -/
def populatedState : CacheManager.CacheState ℕ :=
  [1, 2, 3, 4, 5].foldl
    (fun s n => CacheManager.set natDumps idHash s "geocoding" n [n] [] 0)
    ([1, 2, 3, 4, 5].foldl
      (fun s n => CacheManager.set natDumps idHash s "weather" n [n] [] 0)
      emptyState)

/-! ## Helper lemmas -/

theorem length_filter_not_add {γ : Type} (l : List γ) (p : γ → Bool) :
    (l.filter (fun e => ¬ p e)).length + (l.filter p).length = l.length := by
  have h : (fun e => decide ¬(p e = true)) = (fun e => !(p e)) := by
    funext e; cases he : p e <;> simp [he]
  rw [h]
  have h₂ := @List.length_eq_length_filter_add _ l p
  omega

theorem sortKwargs_pairwise {β : Type} (l : List (String × β)) :
    (CacheManager.sortKwargs l).Pairwise (fun a b => a.1 ≤ b.1) := by
  have h := @List.sorted_mergeSort (String × β) (fun a b => decide (a.1 ≤ b.1))
    (fun a b c h1 h2 => by
      simp only [decide_eq_true_eq] at h1 h2 ⊢; exact le_trans h1 h2)
    (fun a b => by
      simp only [Bool.or_eq_true, decide_eq_true_eq]; exact le_total a.1 b.1) l
  exact h.imp (fun hab => by simpa using hab)

theorem sortKwargs_eq_of_perm {β : Type} {l₁ l₂ : List (String × β)}
    (hp : l₁.Perm l₂) (hnd : (l₁.map Prod.fst).Nodup) :
    CacheManager.sortKwargs l₁ = CacheManager.sortKwargs l₂ := by
  have hperm₁ : (CacheManager.sortKwargs l₁).Perm l₁ := List.mergeSort_perm l₁ _
  have hperm₂ : (CacheManager.sortKwargs l₂).Perm l₂ := List.mergeSort_perm l₂ _
  have hnd₂ : (l₂.map Prod.fst).Nodup := ((hp.map Prod.fst).nodup_iff).mp hnd
  have hnd₁' : (CacheManager.sortKwargs l₁).Pairwise (fun a b => a.1 ≠ b.1) := by
    have := ((hperm₁.map Prod.fst).nodup_iff).mpr hnd
    exact (List.pairwise_map).mp this
  have hnd₂' : (CacheManager.sortKwargs l₂).Pairwise (fun a b => a.1 ≠ b.1) := by
    have := ((hperm₂.map Prod.fst).nodup_iff).mpr hnd₂
    exact (List.pairwise_map).mp this
  have hs₁ : (CacheManager.sortKwargs l₁).Pairwise (fun a b => a.1 < b.1) :=
    ((sortKwargs_pairwise l₁).and hnd₁').imp (fun h => lt_of_le_of_ne h.1 h.2)
  have hs₂ : (CacheManager.sortKwargs l₂).Pairwise (fun a b => a.1 < b.1) :=
    ((sortKwargs_pairwise l₂).and hnd₂').imp (fun h => lt_of_le_of_ne h.1 h.2)
  haveI : IsAntisymm (String × β) (fun a b => a.1 < b.1) :=
    ⟨fun a b h1 h2 => absurd (lt_trans h1 h2) (lt_irrefl _)⟩
  exact List.eq_of_perm_of_sorted (hperm₁.trans (hp.trans hperm₂.symm)) hs₁ hs₂

theorem colon_free_not_prefix (A B D : List Char) (hA : ':' ∉ A) (hB : ':' ∉ B)
    (hne : A ≠ B) : ¬ (A ++ [':']) <+: (B ++ ':' :: D) := by
  rintro ⟨t, ht⟩
  rw [List.append_assoc, List.singleton_append] at ht
  rcases List.append_eq_append_iff.mp ht with ⟨a', hBa, hrest⟩ | ⟨c', hAc, hrest⟩
  · cases a' with
    | nil => exact hne (by simpa using hBa.symm)
    | cons c cs =>
      have hc : c = ':' := ((List.cons_eq_cons.mp hrest).1).symm
      exact hB (hBa ▸ List.mem_append_right _ (hc ▸ List.mem_cons_self c cs))
  · cases c' with
    | nil => exact hne (by simpa using hAc)
    | cons c cs =>
      have hc : c = ':' := ((List.cons_eq_cons.mp hrest).1).symm
      exact hA (hAc ▸ List.mem_append_right _ (hc ▸ List.mem_cons_self c cs))

/-! ## C1: Julian-day one-day increments -/

/-- **C1** (code bug): for 2024-01-31 and the day exactly one day after it,
2024-02-01, the code's `calculate_julian_day` values differ by `0.6001`, not
by `1.0`: the source omits the integer truncations of the standard Julian-day
algorithm (`int(365.25*(year+4716))`, `int(30.6001*(month+1))`), so the
month-boundary step `30.6001*(15-14) - 30 = 0.6001` appears instead of `1`.
The claimed one-day increment (within tolerance 1e-9) therefore fails. -/
theorem julian_day_one_day_apart_bug :
    nextDay jan31 = feb1 ∧
    calculate_julian_day feb1 - calculate_julian_day jan31 = 6001 / 10000 ∧
    ¬ |calculate_julian_day feb1 - calculate_julian_day jan31 - 1| ≤ 1 / 10 ^ 9 := by
  have h1 : calculate_julian_day jan31 = 12301708257 / 5000 := by
    norm_num [calculate_julian_day, jan31, Int.fdiv]
  have h2 : calculate_julian_day feb1 = 24603422515 / 10000 := by
    norm_num [calculate_julian_day, feb1, Int.fdiv]
  refine ⟨by decide, by rw [h1, h2]; norm_num, by rw [h1, h2, abs_le]; norm_num⟩

/-! ## C3: cache `get` semantics -/

/-- **C3** (counterexample to the claim as stated): with the weather TTL
configured to 60s and an entry written at time 0, a `get` at time 60 *returns
the stored value* although its age (60) is **not** strictly less than the TTL:
expiry in the code is `age > ttl`, so at `age = TTL` the entry is still a
hit.  The claimed "returns the value iff age < TTL" is therefore false. -/
theorem cache_get_ttl_boundary_counterexample :
    (CacheManager.get exampleDumps exampleHash exampleState "weather" [] [] 60).1 = some 7 ∧
    ¬ ((60 : ℚ) - 0 < exampleState.ttl_config.lookup "weather") := by
  constructor
  · simp only [CacheManager.get, CacheManager.get_with_key, exampleState, exampleKey,
      CacheManager.dictFind, List.lookup, beq_self_eq_true, CacheManager.is_expired,
      CacheManager.TTLConfig.lookup]
    norm_num
  · simp only [exampleState, CacheManager.TTLConfig.lookup]
    norm_num

theorem get_with_key_hit {α : Type} (s : CacheManager.CacheState α) (ct key : String)
    (now : ℚ) (v : α) (ts : ℚ)
    (hfind : CacheManager.dictFind s.cache key = some (v, ts))
    (hfresh : now - ts ≤ s.ttl_config.lookup ct) :
    CacheManager.get_with_key s ct key now = (some v, { s with hits := s.hits + 1 }) := by
  have hb : CacheManager.is_expired s.ttl_config now ts ct = false := by
    simp only [CacheManager.is_expired, gt_iff_lt, decide_eq_false_iff_not, not_lt]
    exact hfresh
  simp [CacheManager.get_with_key, hfind, hb]

theorem get_with_key_expired {α : Type} (s : CacheManager.CacheState α) (ct key : String)
    (now : ℚ) (v : α) (ts : ℚ)
    (hfind : CacheManager.dictFind s.cache key = some (v, ts))
    (hexp : s.ttl_config.lookup ct < now - ts) :
    CacheManager.get_with_key s ct key now =
      (none, { s with cache := CacheManager.dictErase s.cache key,
                      evictions := s.evictions + 1, misses := s.misses + 1 }) := by
  have hb : CacheManager.is_expired s.ttl_config now ts ct = true := by
    simp only [CacheManager.is_expired, gt_iff_lt, decide_eq_true_eq]
    exact hexp
  simp [CacheManager.get_with_key, hfind, hb]

theorem get_with_key_missing {α : Type} (s : CacheManager.CacheState α) (ct key : String)
    (now : ℚ) (hfind : CacheManager.dictFind s.cache key = none) :
    CacheManager.get_with_key s ct key now = (none, { s with misses := s.misses + 1 }) := by
  simp [CacheManager.get_with_key, hfind]

/-- **C3** (amended): `get` returns the stored value iff an entry exists for
the derived key and its age is *at most* (not strictly less than) the TTL of
the category, looked up in the current `ttl_config` at read time; an existing
but expired entry (age > TTL) is removed, the call returns absent, and the
eviction and miss counters each grow by exactly 1; every call increments
exactly one of the hit or miss counters. -/
theorem cache_get_spec {α β : Type} (dumps : CacheManager.KeyData β → String)
    (md5hex : String → String) (s : CacheManager.CacheState α) (cache_type : String)
    (args : List β) (kwargs : List (String × β)) (now : ℚ) :
    (∀ v : α, (CacheManager.get dumps md5hex s cache_type args kwargs now).1 = some v ↔
      ∃ ts, CacheManager.dictFind s.cache
          (CacheManager.generate_key dumps md5hex cache_type args kwargs) = some (v, ts) ∧
        now - ts ≤ s.ttl_config.lookup cache_type) ∧
    (∀ (v : α) (ts : ℚ),
      CacheManager.dictFind s.cache
          (CacheManager.generate_key dumps md5hex cache_type args kwargs) = some (v, ts) →
      s.ttl_config.lookup cache_type < now - ts →
      (CacheManager.get dumps md5hex s cache_type args kwargs now).1 = none ∧
      (CacheManager.get dumps md5hex s cache_type args kwargs now).2.evictions =
        s.evictions + 1 ∧
      (CacheManager.get dumps md5hex s cache_type args kwargs now).2.misses = s.misses + 1 ∧
      (CacheManager.get dumps md5hex s cache_type args kwargs now).2.cache =
        CacheManager.dictErase s.cache
          (CacheManager.generate_key dumps md5hex cache_type args kwargs)) ∧
    (((CacheManager.get dumps md5hex s cache_type args kwargs now).2.hits = s.hits + 1 ∧
      (CacheManager.get dumps md5hex s cache_type args kwargs now).2.misses = s.misses) ∨
     ((CacheManager.get dumps md5hex s cache_type args kwargs now).2.hits = s.hits ∧
      (CacheManager.get dumps md5hex s cache_type args kwargs now).2.misses = s.misses + 1)) := by
  cases hfind : CacheManager.dictFind s.cache
      (CacheManager.generate_key dumps md5hex cache_type args kwargs) with
  | none =>
    have heq := get_with_key_missing s cache_type
      (CacheManager.generate_key dumps md5hex cache_type args kwargs) now hfind
    refine ⟨fun v => ?_, fun v ts h _ => ?_, ?_⟩
    · rw [CacheManager.get, heq]
      constructor
      · intro h; exact absurd h (by simp)
      · rintro ⟨ts, hts, -⟩; exact absurd hts (by simp)
    · exact absurd h (by simp)
    · right
      rw [CacheManager.get, heq]
      exact ⟨rfl, rfl⟩
  | some p =>
    obtain ⟨v0, ts0⟩ := p
    by_cases hexp : s.ttl_config.lookup cache_type < now - ts0
    · have heq := get_with_key_expired s cache_type
        (CacheManager.generate_key dumps md5hex cache_type args kwargs) now v0 ts0 hfind hexp
      refine ⟨fun v => ?_, fun v ts h hlt => ?_, ?_⟩
      · rw [CacheManager.get, heq]
        constructor
        · intro h; exact absurd h (by simp)
        · rintro ⟨ts, hts, hle⟩
          obtain ⟨rfl, rfl⟩ : v0 = v ∧ ts0 = ts := by simpa using hts
          exact absurd hle (not_le.mpr hexp)
      · rw [CacheManager.get, heq]
        exact ⟨rfl, rfl, rfl, rfl⟩
      · right
        rw [CacheManager.get, heq]
        exact ⟨rfl, rfl⟩
    · have heq := get_with_key_hit s cache_type
        (CacheManager.generate_key dumps md5hex cache_type args kwargs) now v0 ts0 hfind
        (not_lt.mp hexp)
      refine ⟨fun v => ?_, fun v ts h hlt => ?_, ?_⟩
      · rw [CacheManager.get, heq]
        constructor
        · intro h
          obtain rfl : v0 = v := by simpa using h
          exact ⟨ts0, rfl, not_lt.mp hexp⟩
        · rintro ⟨ts, hts, -⟩
          obtain ⟨rfl, rfl⟩ : v0 = v ∧ ts0 = ts := by simpa using hts
          rfl
      · obtain ⟨rfl, rfl⟩ : v0 = v ∧ ts0 = ts := by simpa using h
        exact absurd hlt hexp
      · left
        rw [CacheManager.get, heq]
        exact ⟨rfl, rfl⟩

/-- Witness for `cache_get_spec`, realising the spec's TTL-expiry scenario:
weather TTL 60s, entry written at t₀ = 0, queried at t₀ + 61: the value is
absent and the eviction counter increments by exactly 1. -/
theorem cache_get_spec_witness :
    (CacheManager.get exampleDumps exampleHash exampleState "weather" [] [] 61).1 = none ∧
    (CacheManager.get exampleDumps exampleHash exampleState "weather" [] [] 61).2.evictions =
      exampleState.evictions + 1 ∧
    (CacheManager.get exampleDumps exampleHash exampleState "weather" [] [] 61).2.misses =
      exampleState.misses + 1 := by
  have h := (cache_get_spec exampleDumps exampleHash exampleState "weather" [] [] 61).2.1 7 0
    (by simp [exampleState, exampleKey, CacheManager.dictFind, List.lookup])
    (by simp only [exampleState, CacheManager.TTLConfig.lookup]; norm_num)
  exact ⟨h.1, h.2.1, h.2.2.1⟩

/-! ## C8: cache key derivation -/

/-- **C8**: key derivation is deterministic and stable under argument
presentation: (1) the same named arguments supplied in a different order
(a permutation; names of a Python dict are distinct) yield the same key, for
any serialiser and hash; (2) keys of different categories never collide,
because the key is the category prefix followed by `':'` and a fixed-length
(32-character) digest. -/
theorem cache_key_spec {β : Type} :
    (∀ (dumps : CacheManager.KeyData β → String) (md5hex : String → String)
       (cat : String) (args : List β) (kw₁ kw₂ : List (String × β)),
       kw₁.Perm kw₂ → (kw₁.map Prod.fst).Nodup →
       CacheManager.generate_key dumps md5hex cat args kw₁ =
         CacheManager.generate_key dumps md5hex cat args kw₂) ∧
    (∀ (dumps : CacheManager.KeyData β → String) (md5hex : String → String)
       (cat₁ cat₂ : String) (args₁ args₂ : List β) (kw₁ kw₂ : List (String × β)),
       (∀ str : String, (md5hex str).length = 32) → cat₁ ≠ cat₂ →
       CacheManager.generate_key dumps md5hex cat₁ args₁ kw₁ ≠
         CacheManager.generate_key dumps md5hex cat₂ args₂ kw₂) := by
  constructor
  · intro dumps md5hex cat args kw₁ kw₂ hp hnd
    unfold CacheManager.generate_key
    rw [sortKwargs_eq_of_perm hp hnd]
  · intro dumps md5hex cat₁ cat₂ args₁ args₂ kw₁ kw₂ hlen hne heq
    apply hne
    have hd := congrArg String.data heq
    simp only [CacheManager.generate_key, String.data_append] at hd
    have hlen₁ : (md5hex (dumps ⟨args₁, CacheManager.sortKwargs kw₁⟩)).data.length = 32 :=
      hlen _
    have hlen₂ : (md5hex (dumps ⟨args₂, CacheManager.sortKwargs kw₂⟩)).data.length = 32 :=
      hlen _
    have h₁ := (List.append_inj' hd (hlen₁.trans hlen₂.symm)).1
    have h₂ := (List.append_inj' h₁ rfl).1
    exact String.ext h₂

/-- Witness for `cache_key_spec`: two concrete calls with the same named
arguments in different orders derive the same key, and keys of two different
categories differ, under concrete serialiser/hash functions. -/
theorem cache_key_spec_witness :
    CacheManager.generate_key exampleDumps exampleHash "weather" [0]
        [("b", 2), ("a", 1)] =
      CacheManager.generate_key exampleDumps exampleHash "weather" [0]
        [("a", 1), ("b", 2)] ∧
    CacheManager.generate_key exampleDumps exampleHash "weather" [0] [] ≠
      CacheManager.generate_key exampleDumps exampleHash "geocoding" [0] [] := by
  constructor
  · exact cache_key_spec.1 exampleDumps exampleHash "weather" [0] _ _
      (by decide) (by decide)
  · exact cache_key_spec.2 exampleDumps exampleHash "weather" "geocoding" [0] [0] [] []
      (fun str => rfl) (by decide)

/-! ## C9: `clear_by_type` -/

/-- **C9** (counterexample to the claim as stated): category labels are not
restricted to be colon-free, and the key of category `"a:b"` starts with the
prefix `"a:"`, so `clear_by_type("a")` removes the `"a:b"` entry — an entry
of a *different* category does not remain unchanged.  The single entry of
`colonState` belongs to category `"a:b"`, yet clearing category `"a"` removes
it (1 entry cleared, none left). -/
theorem clear_by_type_colon_category_counterexample :
    colonState.cache.length = 1 ∧
    colonState.cache.map Prod.fst =
      [CacheManager.generate_key exampleDumps exampleHash "a:b" [] []] ∧
    (CacheManager.clear_by_type colonState "a").1 = 1 ∧
    (CacheManager.clear_by_type colonState "a").2.cache = [] := by
  refine ⟨rfl, rfl, ?_, ?_⟩ <;>
    simp [CacheManager.clear_by_type, colonState, colonKey,
      CacheManager.generate_key, CacheManager.strStartsWith, exampleHash,
      List.isPrefixOf, List.filter]

/-- **C9** (amended): `clear_by_type` removes exactly the entries whose key
starts with `category ++ ":"` and returns their number; the statistics
counters and the TTL configuration are untouched, and the remaining entry
count plus the returned count equals the original count.  Provided category
labels contain no `':'`, the prefixes of distinct categories never match, so
every entry of every other (colon-free) category remains. -/
theorem clear_by_type_spec {α : Type} (s : CacheManager.CacheState α)
    (cache_type : String) :
    (CacheManager.clear_by_type s cache_type).2.cache =
      s.cache.filter (fun e => ¬ CacheManager.strStartsWith e.1 (cache_type ++ ":")) ∧
    (CacheManager.clear_by_type s cache_type).1 =
      (s.cache.filter (fun e => CacheManager.strStartsWith e.1 (cache_type ++ ":"))).length ∧
    (CacheManager.clear_by_type s cache_type).2.cache.length +
      (CacheManager.clear_by_type s cache_type).1 = s.cache.length ∧
    (CacheManager.clear_by_type s cache_type).2.hits = s.hits ∧
    (CacheManager.clear_by_type s cache_type).2.misses = s.misses ∧
    (CacheManager.clear_by_type s cache_type).2.sets = s.sets ∧
    (CacheManager.clear_by_type s cache_type).2.evictions = s.evictions ∧
    (CacheManager.clear_by_type s cache_type).2.ttl_config = s.ttl_config ∧
    (∀ (cat₂ digest : String), ':' ∉ cache_type.data → ':' ∉ cat₂.data →
       cat₂ ≠ cache_type →
       CacheManager.strStartsWith (cat₂ ++ ":" ++ digest) (cache_type ++ ":") = false) := by
  refine ⟨rfl, rfl, ?_, rfl, rfl, rfl, rfl, rfl, ?_⟩
  · exact length_filter_not_add s.cache
      (fun e => CacheManager.strStartsWith e.1 (cache_type ++ ":"))
  · intro cat₂ digest h₁ h₂ hne
    rw [CacheManager.strStartsWith]
    rw [Bool.eq_false_iff]
    intro hpre
    have hp := List.isPrefixOf_iff_prefix.mp hpre
    simp only [String.data_append] at hp
    exact colon_free_not_prefix cache_type.data cat₂.data digest.data h₁ h₂
      (fun h => hne (String.ext h.symm)) (by simpa using hp)

/-- Witness for `clear_by_type_spec`: two categories populated with 5 entries
each; clearing `"weather"` reports 5 removed and leaves the 5 `"geocoding"`
entries (total count 5). -/
theorem clear_by_type_spec_witness :
    (CacheManager.clear_by_type populatedState "weather").1 = 5 ∧
    (CacheManager.clear_by_type populatedState "weather").2.cache.length = 5 ∧
    CacheManager.strStartsWith ("geocoding" ++ ":" ++ "1") ("weather" ++ ":") = false := by
  have h := clear_by_type_spec populatedState "weather"
  refine ⟨?_, ?_, ?_⟩
  · rw [h.2.1]; decide
  · rw [h.1]; decide
  · exact h.2.2.2.2.2.2.2.2 "geocoding" "1" (by decide) (by decide) (by decide)

/-! ## C10: statistics counters frame conditions -/

/-- **C10**: the hit/miss/set counters are modified only by `get` (exactly one
of hit or miss per call) and `set` (one write per call): `delete` touches no
counter at all (and only removes the addressed key), `clear_by_type` leaves
all four counters unchanged, and `cleanup_expired` leaves hit/miss/set
unchanged, increments the eviction counter by exactly the number of entries
it removed (= its return value, = the number of entries whose age exceeds the
TTL of the category recovered from their key), and keeps exactly the
non-expired entries untouched. -/
theorem cache_frame_spec {α β : Type} (dumps : CacheManager.KeyData β → String)
    (md5hex : String → String) (s : CacheManager.CacheState α) (cache_type : String)
    (value : α) (args : List β) (kwargs : List (String × β)) (now : ℚ) :
    ((CacheManager.delete dumps md5hex s cache_type args kwargs).2.hits = s.hits ∧
     (CacheManager.delete dumps md5hex s cache_type args kwargs).2.misses = s.misses ∧
     (CacheManager.delete dumps md5hex s cache_type args kwargs).2.sets = s.sets ∧
     (CacheManager.delete dumps md5hex s cache_type args kwargs).2.evictions = s.evictions) ∧
    ((CacheManager.clear_by_type s cache_type).2.hits = s.hits ∧
     (CacheManager.clear_by_type s cache_type).2.misses = s.misses ∧
     (CacheManager.clear_by_type s cache_type).2.sets = s.sets ∧
     (CacheManager.clear_by_type s cache_type).2.evictions = s.evictions) ∧
    ((CacheManager.cleanup_expired s now).2.hits = s.hits ∧
     (CacheManager.cleanup_expired s now).2.misses = s.misses ∧
     (CacheManager.cleanup_expired s now).2.sets = s.sets ∧
     (CacheManager.cleanup_expired s now).2.evictions =
       s.evictions + (CacheManager.cleanup_expired s now).1 ∧
     (CacheManager.cleanup_expired s now).2.cache = s.cache.filter
       (fun e => ¬ CacheManager.is_expired s.ttl_config now e.2.2
         (CacheManager.keyCategory e.1)) ∧
     (CacheManager.cleanup_expired s now).1 = (s.cache.filter
       (fun e => CacheManager.is_expired s.ttl_config now e.2.2
         (CacheManager.keyCategory e.1))).length ∧
     (CacheManager.cleanup_expired s now).2.cache.length +
       (CacheManager.cleanup_expired s now).1 = s.cache.length) ∧
    ((CacheManager.set dumps md5hex s cache_type value args kwargs now).sets = s.sets + 1 ∧
     (CacheManager.set dumps md5hex s cache_type value args kwargs now).hits = s.hits ∧
     (CacheManager.set dumps md5hex s cache_type value args kwargs now).misses = s.misses ∧
     (CacheManager.set dumps md5hex s cache_type value args kwargs now).evictions =
       s.evictions) ∧
    ((CacheManager.get dumps md5hex s cache_type args kwargs now).2.sets = s.sets ∧
     (CacheManager.get dumps md5hex s cache_type args kwargs now).2.hits +
       (CacheManager.get dumps md5hex s cache_type args kwargs now).2.misses =
       s.hits + s.misses + 1) := by
  refine ⟨?_, ⟨rfl, rfl, rfl, rfl⟩, ?_, ⟨rfl, rfl, rfl, rfl⟩, ?_⟩
  · unfold CacheManager.delete CacheManager.delete_with_key
    cases CacheManager.dictFind s.cache
        (CacheManager.generate_key dumps md5hex cache_type args kwargs) with
    | none => exact ⟨rfl, rfl, rfl, rfl⟩
    | some p => exact ⟨rfl, rfl, rfl, rfl⟩
  · refine ⟨rfl, rfl, rfl, rfl, rfl, rfl, ?_⟩
    exact length_filter_not_add s.cache
      (fun e => CacheManager.is_expired s.ttl_config now e.2.2
        (CacheManager.keyCategory e.1))
  · cases hfind : CacheManager.dictFind s.cache
        (CacheManager.generate_key dumps md5hex cache_type args kwargs) with
    | none =>
      rw [CacheManager.get, get_with_key_missing s cache_type _ now hfind]
      exact ⟨rfl, by show s.hits + (s.misses + 1) = s.hits + s.misses + 1; omega⟩
    | some p =>
      obtain ⟨v0, ts0⟩ := p
      by_cases hexp : s.ttl_config.lookup cache_type < now - ts0
      · rw [CacheManager.get, get_with_key_expired s cache_type _ now v0 ts0 hfind hexp]
        exact ⟨rfl, by show s.hits + (s.misses + 1) = s.hits + s.misses + 1; omega⟩
      · rw [CacheManager.get,
          get_with_key_hit s cache_type _ now v0 ts0 hfind (not_lt.mp hexp)]
        exact ⟨rfl, by show s.hits + 1 + s.misses = s.hits + s.misses + 1; omega⟩

/-! ## Astronomy helper lemmas -/

theorem radians_degrees (x : ℝ) : radians (degrees x) = x := by
  unfold radians degrees
  field_simp

theorem degrees_radians (x : ℝ) : degrees (radians x) = x := by
  unfold radians degrees
  field_simp

theorem truncInt_eq_floor (x : ℝ) (k : ℤ) (h0 : 0 ≤ x) (h1 : (k : ℝ) ≤ x)
    (h2 : x < k + 1) : truncInt x = k := by
  unfold truncInt
  rw [if_pos h0]
  exact Int.floor_eq_iff.mpr ⟨h1, h2⟩

theorem truncInt_eq_ceil (x : ℝ) (k : ℤ) (h0 : ¬ 0 ≤ x) (h1 : (k : ℝ) - 1 < x)
    (h2 : x ≤ k) : truncInt x = k := by
  unfold truncInt
  rw [if_neg h0]
  exact Int.ceil_eq_iff.mpr ⟨h1, h2⟩

theorem rmod_eq (x m : ℝ) (k : ℤ) (hm : 0 < m) (h1 : m * k ≤ x)
    (h2 : x < m * (k + 1)) : rmod x m = x - m * k := by
  unfold rmod
  have hk : ⌊x / m⌋ = k := by
    rw [Int.floor_eq_iff]
    constructor
    · rw [le_div_iff₀ hm]; linarith
    · rw [div_lt_iff₀ hm]; linarith
  rw [hk]

/-- The solar declination, re-converted to radians as the callers do, is the
`arcsin` value itself, hence lies in `[-π/2, π/2]`. -/
theorem radians_solar_declination (jd : ℝ) :
    radians (calculate_solar_declination jd) ∈
      Set.Icc (-(Real.pi / 2)) (Real.pi / 2) := by
  unfold calculate_solar_declination
  rw [radians_degrees]
  exact Real.arcsin_mem_Icc _

/-- Latitude range of a single terminator point: for any declination in
`[-π/2, π/2]` (as produced by `calculate_solar_declination`) and any hour
angle, the computed latitude lies in `[-90, 90]`, in all branches (main
solution, pole fallback, and the division-error fallback). -/
theorem terminatorLatitude_mem (declination hour_angle : ℝ)
    (hdec : declination ∈ Set.Icc (-(Real.pi / 2)) (Real.pi / 2)) :
    terminatorLatitude declination hour_angle ∈ Set.Icc (-90 : ℝ) 90 := by
  obtain ⟨hd1, hd2⟩ := hdec
  have hpi : (0 : ℝ) < Real.pi := Real.pi_pos
  have hdeg : |degrees declination| ≤ 90 := by
    unfold degrees
    rw [abs_mul, abs_of_pos (by positivity : (0 : ℝ) < 180 / Real.pi)]
    have : |declination| ≤ Real.pi / 2 := abs_le.mpr ⟨hd1, hd2⟩
    calc |declination| * (180 / Real.pi) ≤ Real.pi / 2 * (180 / Real.pi) := by
          apply mul_le_mul_of_nonneg_right this (by positivity)
      _ = 90 := by field_simp; ring
  have habs : 0 ≤ |(-Real.tan declination / Real.tan hour_angle)| := abs_nonneg _
  have harc1 : 0 ≤ Real.arccos |(-Real.tan declination / Real.tan hour_angle)| :=
    Real.arccos_nonneg _
  have harc2 : Real.arccos |(-Real.tan declination / Real.tan hour_angle)| ≤ Real.pi / 2 :=
    Real.arccos_le_pi_div_two.mpr habs
  have hlat1 : 0 ≤ degrees (Real.arccos |(-Real.tan declination / Real.tan hour_angle)|) := by
    unfold degrees; positivity
  have hlat2 : degrees (Real.arccos |(-Real.tan declination / Real.tan hour_angle)|) ≤ 90 := by
    unfold degrees
    calc Real.arccos |(-Real.tan declination / Real.tan hour_angle)| * (180 / Real.pi) ≤
          Real.pi / 2 * (180 / Real.pi) := by
          apply mul_le_mul_of_nonneg_right harc2 (by positivity)
      _ = 90 := by field_simp; ring
  have habs2 : 0 ≤ |degrees declination| := abs_nonneg _
  unfold terminatorLatitude
  split_ifs <;> constructor <;> linarith

/-! ## C2: terminator curve shape -/

/-- **C2**: for every timestamp and requested point count, the boundary has
exactly `num_points` coordinates; the `i`-th longitude is exactly
`-180 + 360*i/num_points`, lying in `[-180, 180)`; every latitude lies in
`[-90, 90]` (in all branches of the point computation, including the pole
fallback and the division-error fallback — see `terminatorLatitude_mem`);
the sequence is open (for `num_points > 1` the first and last longitudes
differ, so the curve is not closed into a polygon); and the result carries
the instant it was computed for. -/
theorem day_night_boundary_points_spec (dt : DateTime) (num_points : ℕ) :
    (calculate_day_night_boundary dt num_points).coordinates.length = num_points ∧
    (∀ i : ℕ, i < num_points →
      ((calculate_day_night_boundary dt num_points).coordinates.getD i (0, 0)).1 =
        -180 + 360 * (i : ℝ) / (num_points : ℝ) ∧
      -180 ≤ ((calculate_day_night_boundary dt num_points).coordinates.getD i (0, 0)).1 ∧
      ((calculate_day_night_boundary dt num_points).coordinates.getD i (0, 0)).1 < 180 ∧
      -90 ≤ ((calculate_day_night_boundary dt num_points).coordinates.getD i (0, 0)).2 ∧
      ((calculate_day_night_boundary dt num_points).coordinates.getD i (0, 0)).2 ≤ 90) ∧
    (1 < num_points →
      ((calculate_day_night_boundary dt num_points).coordinates.getD 0 (0, 0)).1 ≠
      ((calculate_day_night_boundary dt num_points).coordinates.getD
        (num_points - 1) (0, 0)).1) ∧
    (calculate_day_night_boundary dt num_points).calculated_at = dt := by
  have hget : ∀ i : ℕ, i < num_points →
      (calculate_day_night_boundary dt num_points).coordinates.getD i (0, 0) =
        (-180 + 360 * (i : ℝ) / (num_points : ℝ),
         terminatorLatitude
           (radians (calculate_solar_declination ((calculate_julian_day dt : ℚ) : ℝ)))
           (radians (calculate_hour_angle (-180 + 360 * (i : ℝ) / (num_points : ℝ))
             ((calculate_julian_day dt : ℚ) : ℝ)))) := by
    intro i hi
    unfold calculate_day_night_boundary
    rw [List.getD_eq_getElem?_getD, List.getElem?_map, List.getElem?_range hi]
    rfl
  have hlon : ∀ i : ℕ, i < num_points →
      -180 ≤ -180 + 360 * (i : ℝ) / (num_points : ℝ) ∧
      -180 + 360 * (i : ℝ) / (num_points : ℝ) < 180 := by
    intro i hi
    have hn : (0 : ℝ) < (num_points : ℝ) := by
      have : 0 < num_points := by omega
      exact_mod_cast this
    constructor
    · have : 0 ≤ 360 * (i : ℝ) / (num_points : ℝ) := by positivity
      linarith
    · have hi' : (i : ℝ) < (num_points : ℝ) := by exact_mod_cast hi
      have : 360 * (i : ℝ) / (num_points : ℝ) < 360 := by
        rw [div_lt_iff₀ hn]; nlinarith
      linarith
  refine ⟨?_, ?_, ?_, rfl⟩
  · unfold calculate_day_night_boundary
    simp
  · intro i hi
    rw [hget i hi]
    refine ⟨rfl, (hlon i hi).1, (hlon i hi).2, ?_⟩
    have hmem := terminatorLatitude_mem
      (radians (calculate_solar_declination ((calculate_julian_day dt : ℚ) : ℝ)))
      (radians (calculate_hour_angle (-180 + 360 * (i : ℝ) / (num_points : ℝ))
        ((calculate_julian_day dt : ℚ) : ℝ)))
      (radians_solar_declination _)
    exact ⟨hmem.1, hmem.2⟩
  · intro hn
    have h0 : (0 : ℕ) < num_points := by omega
    have hl : num_points - 1 < num_points := by omega
    rw [hget 0 h0, hget (num_points - 1) hl]
    have hpos : (0 : ℝ) < 360 * ((num_points - 1 : ℕ) : ℝ) / (num_points : ℝ) := by
      have h1 : (0 : ℝ) < ((num_points - 1 : ℕ) : ℝ) := by
        have : 0 < num_points - 1 := by omega
        exact_mod_cast this
      have h2 : (0 : ℝ) < (num_points : ℝ) := by exact_mod_cast h0
      positivity
    simp only [Nat.cast_zero]
    intro heq
    rw [mul_zero, zero_div] at heq
    linarith
  
/-- Witness for `day_night_boundary_points_spec` at the default point count
360 and a concrete instant. -/
theorem day_night_boundary_points_spec_witness :
    (calculate_day_night_boundary equinox2024 360).coordinates.length = 360 ∧
    ((calculate_day_night_boundary equinox2024 360).coordinates.getD 0 (0, 0)).1 =
      -180 ∧
    -90 ≤ ((calculate_day_night_boundary equinox2024 360).coordinates.getD 0 (0, 0)).2 ∧
    ((calculate_day_night_boundary equinox2024 360).coordinates.getD 0 (0, 0)).2 ≤ 90 := by
  have h := day_night_boundary_points_spec equinox2024 360
  have h0 := h.2.1 0 (by norm_num)
  refine ⟨h.1, ?_, h0.2.2.2.1, h0.2.2.2.2⟩
  rw [h0.1]
  norm_num

/-! ## C4/C5: the broken clock-time conversion -/

/-- Evaluation helper: for the negative fractional decimal hour `-5.5`,
`int()`-truncation toward zero makes `minutes = -30`, and
`datetime.replace(minute=-30)` raises `ValueError` (`none`), for any base
date. -/
theorem decimal_hour_neg_frac (base : DateTime) :
    decimal_hour_to_datetime (-11 / 2 : ℝ) base = none := by
  have h1 : truncInt (-11 / 2 : ℝ) = -5 :=
    truncInt_eq_ceil _ _ (by norm_num) (by push_cast; norm_num) (by push_cast; norm_num)
  have t30 : truncInt (-30 : ℝ) = -30 :=
    truncInt_eq_ceil _ _ (by norm_num) (by push_cast; norm_num) (by push_cast; norm_num)
  have t0 : truncInt (0 : ℝ) = 0 :=
    truncInt_eq_floor _ _ le_rfl (by norm_num) (by norm_num)
  simp only [decimal_hour_to_datetime, h1]
  norm_num [t30, t0, dtReplaceHMS]

theorem truncInt_intCast (k : ℤ) : truncInt (k : ℝ) = k := by
  by_cases h : (0 : ℝ) ≤ (k : ℝ)
  · exact truncInt_eq_floor _ _ h le_rfl (by norm_num)
  · exact truncInt_eq_ceil _ _ h (by norm_num) le_rfl

/-- **C5** (code bug): the day-rollover handling of
`decimal_hour_to_datetime` is broken for negative fractional decimal hours.
`int()` truncates toward zero, so for `decimal_hour = -5.5` (e.g. solar noon
0.5h at longitude 172.5°E with hour angle 90°, sunrise_hour = 0.5 - 6) the
computed minutes are `-30` and `datetime.replace` raises `ValueError` — no
valid clock time on the previous day is produced (the enclosing `except`
then discards the whole result).  Negative *integer* hours and hours ≥ 24
do roll over as the claim describes, as the last two conjuncts show. -/
theorem decimal_hour_rollover_bug :
    decimal_hour_to_datetime (-11 / 2 : ℝ) (atMidnight equinox2024) = none ∧
    decimal_hour_to_datetime (-5 : ℝ) (atMidnight equinox2024) =
      some ⟨2024, 3, 19, 19, 0, 0⟩ ∧
    decimal_hour_to_datetime (25 : ℝ) (atMidnight equinox2024) =
      some ⟨2024, 3, 21, 1, 0, 0⟩ := by
  have t0 : truncInt (0 : ℝ) = 0 :=
    truncInt_eq_floor _ _ le_rfl (by norm_num) (by norm_num)
  refine ⟨decimal_hour_neg_frac _, ?_, ?_⟩
  · have h1 : truncInt (-5 : ℝ) = -5 := by
      have := truncInt_intCast (-5)
      push_cast at this
      exact this
    simp only [decimal_hour_to_datetime, h1]
    norm_num [t0]
    decide
  · have h1 : truncInt (25 : ℝ) = 25 := by
      have := truncInt_intCast 25
      push_cast at this
      exact this
    simp only [decimal_hour_to_datetime, h1]
    norm_num [t0]
    decide

theorem degrees_pi_div_two : degrees (Real.pi / 2) = 90 := by
  unfold degrees
  field_simp
  ring

/-- **C4** (code bug): the result of `calculate_sunrise_sunset` is *not*
always one of the three claimed states.  When the clock-time conversion
raises `ValueError` (negative fractional decimal hour, e.g. eastern
longitudes — here longitude 172.5° with `cos_hour_angle = 0`, i.e. hour
angle 90°, so `sunrise_hour = -5.5`), the `except` handler returns a fourth,
mixed state: absent times with `polar_day = polar_night = False` and no
daylight-hours value.  The first conjunct ties the staged function to
`calculate_sunrise_sunset` itself. -/
theorem sunrise_sunset_mixed_state_bug :
    (∀ (latitude longitude : ℝ) (date : DateTime),
      calculate_sunrise_sunset latitude longitude date =
        sunriseSunsetFromCos (sunriseCosHourAngle latitude date) longitude date) ∧
    sunriseSunsetFromCos 0 (345 / 2) equinox2024 = errorResult ∧
    errorResult.sunrise = none ∧ errorResult.sunset = none ∧
    errorResult.polar_day = false ∧ errorResult.polar_night = false ∧
    errorResult.daylight_hours = none := by
  refine ⟨fun _ _ _ => rfl, ?_, rfl, rfl, rfl, rfl, rfl⟩
  have hsr : 12 - (345 / 2 : ℝ) / 15 - degrees (Real.arccos 0) / 15 = -11 / 2 := by
    rw [Real.arccos_zero, degrees_pi_div_two]
    norm_num
  simp only [sunriseSunsetFromCos]
  rw [if_neg (by norm_num : ¬ (1 : ℝ) < |(0 : ℝ)|)]
  rw [hsr, decimal_hour_neg_frac]

/-! ## C7 (amended part): `is_daylight` against the unrounded elevation -/

/-- **C7** (amended): for every latitude, longitude and timestamp, the
`is_daylight` flag of `calculate_sun_position` is true iff the *unrounded*
solar elevation exceeds -6° — the reported `elevation` field is the
2-decimal rounding of that value (and can therefore disagree with the flag
when the true elevation lies in (-6, -5.995); see the counterexample). -/
theorem is_daylight_unrounded_spec (latitude longitude : ℝ) (dt : DateTime) :
    ((calculate_sun_position latitude longitude dt).is_daylight = true ↔
      elevationRaw latitude longitude dt > -6) ∧
    (calculate_sun_position latitude longitude dt).elevation =
      round2 (elevationRaw latitude longitude dt) := by
  constructor
  · simp only [calculate_sun_position, decide_eq_true_eq]
  · rfl

/-! ## Certified numeric bounds for sine and cosine

`Real.sin_bound` / `Real.cos_bound` give cubic Taylor bounds for `|x| ≤ 1`;
combined with monotonicity on `[-π/2, π/2]` (resp. antitonicity on `[0, π]`)
they certify sine/cosine values over rational intervals. -/

theorem sin_bounds_of_Icc (a b x : ℝ) (ha : -1 ≤ a) (h1 : a ≤ x) (h2 : x ≤ b)
    (hb : b ≤ 1) :
    a - a ^ 3 / 6 - a ^ 4 * (5 / 96) ≤ Real.sin x ∧
    Real.sin x ≤ b - b ^ 3 / 6 + b ^ 4 * (5 / 96) := by
  have hpi := Real.pi_gt_d6
  have hsa : Real.sin a ≤ Real.sin x :=
    Real.sin_le_sin_of_le_of_le_pi_div_two (by linarith) (by linarith) h1
  have hsb : Real.sin x ≤ Real.sin b :=
    Real.sin_le_sin_of_le_of_le_pi_div_two (by linarith) (by linarith) h2
  have hba := abs_le.mp (Real.sin_bound (abs_le.mpr ⟨ha, by linarith⟩))
  have hbb := abs_le.mp (Real.sin_bound (abs_le.mpr ⟨by linarith, hb⟩))
  have h4a : |a| ^ 4 = a ^ 4 := by
    rw [← abs_pow]; exact abs_of_nonneg (by positivity)
  have h4b : |b| ^ 4 = b ^ 4 := by
    rw [← abs_pow]; exact abs_of_nonneg (by positivity)
  rw [h4a] at hba
  rw [h4b] at hbb
  exact ⟨by linarith [hba.1], by linarith [hbb.2]⟩

theorem cos_bounds_of_abs (l m x : ℝ) (h0 : 0 ≤ l) (h1 : l ≤ |x|) (h2 : |x| ≤ m)
    (hm : m ≤ 1) :
    1 - m ^ 2 / 2 - m ^ 4 * (5 / 96) ≤ Real.cos x ∧
    Real.cos x ≤ 1 - l ^ 2 / 2 + l ^ 4 * (5 / 96) := by
  have hpi := Real.pi_gt_d6
  have hm0 : 0 ≤ m := le_trans (abs_nonneg x) h2
  have hcx : Real.cos x = Real.cos |x| := (Real.cos_abs x).symm
  have hlo : Real.cos m ≤ Real.cos |x| :=
    Real.cos_le_cos_of_nonneg_of_le_pi (abs_nonneg x) (by linarith) h2
  have hhi : Real.cos |x| ≤ Real.cos l :=
    Real.cos_le_cos_of_nonneg_of_le_pi h0 (by linarith) h1
  have hbm := abs_le.mp (@Real.cos_bound m (abs_le.mpr ⟨by linarith, hm⟩))
  have hbl := abs_le.mp (@Real.cos_bound l (abs_le.mpr ⟨by linarith, by linarith⟩))
  have h4m : |m| ^ 4 = m ^ 4 := by
    rw [← abs_pow]; exact abs_of_nonneg (by positivity)
  have h4l : |l| ^ 4 = l ^ 4 := by
    rw [← abs_pow]; exact abs_of_nonneg (by positivity)
  rw [h4m] at hbm
  rw [h4l] at hbl
  rw [hcx]
  exact ⟨by linarith [hbm.1], by linarith [hbl.2]⟩

theorem radians_eq_pi_div_two_sub (x : ℝ) : radians x = Real.pi / 2 - radians (90 - x) := by
  unfold radians; ring

theorem s23_bounds :
    (0.39623 : ℝ) ≤ Real.sin (radians 23.44) ∧ Real.sin (radians 23.44) ≤ 0.39916 := by
  have hpi1 := Real.pi_gt_d6
  have hpi2 := Real.pi_lt_d6
  have hlo : (0.4091050 : ℝ) ≤ radians 23.44 := by unfold radians; linarith
  have hhi : radians 23.44 ≤ 0.4091053 := by unfold radians; linarith
  have h := sin_bounds_of_Icc 0.4091050 0.4091053 (radians 23.44) (by norm_num) hlo hhi
    (by norm_num)
  have hnum1 : (0.39623 : ℝ) ≤ 0.4091050 - 0.4091050 ^ 3 / 6 - 0.4091050 ^ 4 * (5 / 96) := by
    norm_num
  have hnum2 : (0.4091053 : ℝ) - 0.4091053 ^ 3 / 6 + 0.4091053 ^ 4 * (5 / 96) ≤ 0.39916 := by
    norm_num
  exact ⟨le_trans hnum1 h.1, le_trans h.2 hnum2⟩

theorem sin80_lower : (0.98472 : ℝ) ≤ Real.sin (radians 80) := by
  have hpi1 := Real.pi_gt_d6
  have hpi2 := Real.pi_lt_d6
  have hid : radians (80 : ℝ) = Real.pi / 2 - radians 10 := by unfold radians; ring
  rw [hid, Real.sin_pi_div_two_sub]
  have habs : |radians (10 : ℝ)| ≤ 0.174533 := by
    rw [abs_of_nonneg (by unfold radians; positivity)]
    unfold radians; linarith
  have h := cos_bounds_of_abs 0 0.174533 (radians 10) le_rfl (abs_nonneg _) habs (by norm_num)
  have hnum : (0.98472 : ℝ) ≤ 1 - 0.174533 ^ 2 / 2 - 0.174533 ^ 4 * (5 / 96) := by norm_num
  exact le_trans hnum h.1

theorem cos80_bounds :
    0 < Real.cos (radians 80) ∧ Real.cos (radians 80) ≤ 0.174533 := by
  have hpi1 := Real.pi_gt_d6
  have hpi2 := Real.pi_lt_d6
  have hid : radians (80 : ℝ) = Real.pi / 2 - radians 10 := by unfold radians; ring
  rw [hid, Real.cos_pi_div_two_sub]
  have h10pos : 0 < radians (10 : ℝ) := by unfold radians; positivity
  have h10lt : radians (10 : ℝ) < Real.pi := by unfold radians; nlinarith
  have h10ub : radians (10 : ℝ) ≤ 0.174533 := by unfold radians; linarith
  exact ⟨Real.sin_pos_of_pos_of_lt_pi h10pos h10lt,
    le_trans (le_of_lt (Real.sin_lt h10pos)) h10ub⟩

theorem s833_bounds :
    -(0.0145386 : ℝ) ≤ Real.sin (radians (-0.833)) ∧ Real.sin (radians (-0.833)) ≤ 0 := by
  have hpi1 := Real.pi_gt_d6
  have hpi2 := Real.pi_lt_d6
  have hid : radians (-0.833 : ℝ) = -radians 0.833 := by unfold radians; ring
  rw [hid, Real.sin_neg]
  have hpos : 0 < radians (0.833 : ℝ) := by unfold radians; positivity
  have hlt : radians (0.833 : ℝ) < Real.pi := by unfold radians; nlinarith
  have hub : radians (0.833 : ℝ) ≤ 0.0145386 := by unfold radians; linarith
  have h1 := Real.sin_lt hpos
  have h2 := Real.sin_pos_of_pos_of_lt_pi hpos hlt
  exact ⟨by linarith, by linarith⟩

set_option maxHeartbeats 1600000 in
/-- Certified evaluation: at latitude 80°N on the June solstice 2024 the
`cos_hour_angle` computed by `calculate_sunrise_sunset` is below -1
(numerically ≈ -2.55): interval arithmetic over the whole declination chain
(Julian day → mean longitude/anomaly → ecliptic longitude → declination). -/
theorem june_cos_hour_angle_lt : sunriseCosHourAngle 80 juneSolstice2024 < -1 := by
  have hpi1 := Real.pi_gt_d6
  have hpi2 := Real.pi_lt_d6
  have hq : calculate_julian_day (atNoon juneSolstice2024) = 24604822007 / 10000 := by
    norm_num [calculate_julian_day, atNoon, juneSolstice2024, Int.fdiv]
  have hjd : ((calculate_julian_day (atNoon juneSolstice2024) : ℚ) : ℝ) =
      24604822007 / 10000 := by rw [hq]; norm_num
  have hn : (24604822007 / 10000 : ℝ) - 2451545.0 = 89372007 / 10000 := by norm_num
  have hL : rmod (280.460 + 0.9856474 * (89372007 / 10000 : ℝ)) 360 =
      4469431661659 / 50000000000 := by
    rw [rmod_eq _ 360 25 (by norm_num) (by norm_num) (by norm_num)]
    norm_num
  have hg : rmod (357.528 + 0.9856003 * (89372007 / 10000 : ℝ)) 360 =
      16603569108021 / 100000000000 := by
    rw [rmod_eq _ 360 25 (by norm_num) (by norm_num) (by norm_num)]
    norm_num
  simp only [sunriseCosHourAngle, calculate_solar_declination]
  rw [hjd, hn, hL, hg, radians_degrees]
  -- bounds for sin g
  have hgid : radians (16603569108021 / 100000000000 : ℝ) =
      Real.pi - radians (1396430891979 / 100000000000) := by
    unfold radians; ring
  have ht1 : (0.2437231 : ℝ) ≤ radians (1396430891979 / 100000000000) := by
    unfold radians; linarith
  have ht2 : radians (1396430891979 / 100000000000 : ℝ) ≤ 0.2437232 := by
    unfold radians; linarith
  have hsg : (0.24112 : ℝ) ≤ Real.sin (radians (16603569108021 / 100000000000)) ∧
      Real.sin (radians (16603569108021 / 100000000000)) ≤ 0.24150 := by
    rw [hgid, Real.sin_pi_sub]
    have h := sin_bounds_of_Icc 0.2437231 0.2437232 _ (by norm_num) ht1 ht2 (by norm_num)
    constructor
    · have hnum : (0.24112 : ℝ) ≤ 0.2437231 - 0.2437231 ^ 3 / 6 -
          0.2437231 ^ 4 * (5 / 96) := by norm_num
      linarith [h.1]
    · have hnum : (0.2437232 : ℝ) - 0.2437232 ^ 3 / 6 +
          0.2437232 ^ 4 * (5 / 96) ≤ 0.24150 := by norm_num
      linarith [h.2]
  -- bounds for sin 2g
  have h2gid : (2 : ℝ) * radians (16603569108021 / 100000000000) =
      -radians (2792861783958 / 100000000000) + 2 * Real.pi := by
    unfold radians; ring
  have hu1 : (0.4874462 : ℝ) ≤ radians (2792861783958 / 100000000000) := by
    unfold radians; linarith
  have hu2 : radians (2792861783958 / 100000000000 : ℝ) ≤ 0.4874464 := by
    unfold radians; linarith
  have hs2g : -(0.47109 : ℝ) ≤ Real.sin (2 * radians (16603569108021 / 100000000000)) ∧
      Real.sin (2 * radians (16603569108021 / 100000000000)) ≤ -(0.46520 : ℝ) := by
    rw [h2gid, Real.sin_add_two_pi, Real.sin_neg]
    have h := sin_bounds_of_Icc 0.4874462 0.4874464 _ (by norm_num) hu1 hu2 (by norm_num)
    constructor
    · have hnum : (0.4874464 : ℝ) - 0.4874464 ^ 3 / 6 +
          0.4874464 ^ 4 * (5 / 96) ≤ 0.47109 := by norm_num
      linarith [h.2]
    · have hnum : (0.46520 : ℝ) ≤ 0.4874462 - 0.4874462 ^ 3 / 6 -
          0.4874462 ^ 4 * (5 / 96) := by norm_num
      linarith [h.1]
  -- the ecliptic longitude
  set lam : ℝ := 4469431661659 / 50000000000 +
      1.915 * Real.sin (radians (16603569108021 / 100000000000)) +
      0.020 * Real.sin (2 * radians (16603569108021 / 100000000000)) with hlam
  have hlam1 : (89.8409 : ℝ) ≤ lam := by rw [hlam]; linarith [hsg.1, hs2g.1]
  have hlam2 : lam ≤ 89.8419 := by rw [hlam]; linarith [hsg.2, hs2g.2]
  have hrad90 : 0 ≤ radians (90 - lam) := by
    unfold radians; nlinarith
  have hradub : radians (90 - lam) ≤ 0.00278 := by
    unfold radians; nlinarith
  have hsl : (0.9999 : ℝ) ≤ Real.sin (radians lam) := by
    rw [radians_eq_pi_div_two_sub lam, Real.sin_pi_div_two_sub]
    have habs : |radians (90 - lam)| ≤ 0.00278 := by
      rw [abs_of_nonneg hrad90]; exact hradub
    have h := cos_bounds_of_abs 0 0.00278 _ le_rfl (abs_nonneg _) habs (by norm_num)
    have hnum : (0.9999 : ℝ) ≤ 1 - 0.00278 ^ 2 / 2 - 0.00278 ^ 4 * (5 / 96) := by norm_num
    linarith [h.1]
  have hsl2 : Real.sin (radians lam) ≤ 1 := Real.sin_le_one _
  set y : ℝ := Real.sin (radians 23.44) * Real.sin (radians lam) with hy
  have hy1 : (0.39619 : ℝ) ≤ y := by
    rw [hy]; nlinarith [s23_bounds.1, s23_bounds.2, hsl, hsl2]
  have hy2 : y ≤ 0.39916 := by
    rw [hy]; nlinarith [s23_bounds.1, s23_bounds.2, hsl, hsl2]
  rw [Real.sin_arcsin (by linarith) (by linarith), Real.cos_arcsin]
  have hsq1 : Real.sqrt (1 - y ^ 2) ≤ 1 := Real.sqrt_le_one.mpr (by nlinarith)
  have hsq0 : 0 < Real.sqrt (1 - y ^ 2) := Real.sqrt_pos.mpr (by nlinarith)
  have hD0 : 0 < Real.cos (radians 80) * Real.sqrt (1 - y ^ 2) :=
    mul_pos cos80_bounds.1 hsq0
  rw [div_lt_iff₀ hD0]
  have hDub : Real.cos (radians 80) * Real.sqrt (1 - y ^ 2) ≤ 0.174533 := by
    nlinarith [cos80_bounds.1, cos80_bounds.2, hsq0, hsq1]
  have hprod : (0.98472 : ℝ) * 0.39619 ≤ Real.sin (radians 80) * y := by
    nlinarith [sin80_lower, hy1, Real.sin_le_one (radians 80)]
  nlinarith [s833_bounds.2, hprod, hDub, hD0]

set_option maxHeartbeats 1600000 in
/-- Certified evaluation: at latitude 80°N on the December solstice 2024 the
`cos_hour_angle` computed by `calculate_sunrise_sunset` exceeds 1
(numerically ≈ 2.37), again by interval arithmetic over the declination chain. -/
theorem december_cos_hour_angle_gt : sunriseCosHourAngle 80 decemberSolstice2024 > 1 := by
  have hpi1 := Real.pi_gt_d6
  have hpi2 := Real.pi_lt_d6
  have hq : calculate_julian_day (atNoon decemberSolstice2024) = 24606668013 / 10000 := by
    norm_num [calculate_julian_day, atNoon, decemberSolstice2024, Int.fdiv]
  have hjd : ((calculate_julian_day (atNoon decemberSolstice2024) : ℚ) : ℝ) =
      24606668013 / 10000 := by rw [hq]; norm_num
  have hn : (24606668013 / 10000 : ℝ) - 2451545.0 = 91218013 / 10000 := by norm_num
  have hL : rmod (280.460 + 0.9856474 * (91218013 / 10000 : ℝ)) 360 =
      13566986733081 / 50000000000 := by
    rw [rmod_eq _ 360 25 (by norm_num) (by norm_num) (by norm_num)]
    norm_num
  have hg : rmod (357.528 + 0.9856003 * (91218013 / 10000 : ℝ)) 360 =
      34797809782039 / 100000000000 := by
    rw [rmod_eq _ 360 25 (by norm_num) (by norm_num) (by norm_num)]
    norm_num
  simp only [sunriseCosHourAngle, calculate_solar_declination]
  rw [hjd, hn, hL, hg, radians_degrees]
  -- bounds for sin g  (g = 360 - 12.02190217961)
  have hgid : radians (34797809782039 / 100000000000 : ℝ) =
      -radians (1202190217961 / 100000000000) + 2 * Real.pi := by
    unfold radians; ring
  have ht1 : (0.2098217 : ℝ) ≤ radians (1202190217961 / 100000000000) := by
    unfold radians; linarith
  have ht2 : radians (1202190217961 / 100000000000 : ℝ) ≤ 0.2098221 := by
    unfold radians; linarith
  have hsg : -(0.20839 : ℝ) ≤ Real.sin (radians (34797809782039 / 100000000000)) ∧
      Real.sin (radians (34797809782039 / 100000000000)) ≤ -(0.20818 : ℝ) := by
    rw [hgid, Real.sin_add_two_pi, Real.sin_neg]
    have h := sin_bounds_of_Icc 0.2098217 0.2098221 _ (by norm_num) ht1 ht2 (by norm_num)
    constructor
    · have hnum : (0.2098221 : ℝ) - 0.2098221 ^ 3 / 6 +
          0.2098221 ^ 4 * (5 / 96) ≤ 0.20839 := by norm_num
      linarith [h.2]
    · have hnum : (0.20818 : ℝ) ≤ 0.2098217 - 0.2098217 ^ 3 / 6 -
          0.2098217 ^ 4 * (5 / 96) := by norm_num
      linarith [h.1]
  -- bounds for sin 2g  (2g = 720 - 24.04380435922)
  have h2gid : (2 : ℝ) * radians (34797809782039 / 100000000000) =
      (-radians (2404380435922 / 100000000000) + 2 * Real.pi) + 2 * Real.pi := by
    unfold radians; ring
  have hu1 : (0.4196434 : ℝ) ≤ radians (2404380435922 / 100000000000) := by
    unfold radians; linarith
  have hu2 : radians (2404380435922 / 100000000000 : ℝ) ≤ 0.4196442 := by
    unfold radians; linarith
  have hs2g : -(0.40895 : ℝ) ≤ Real.sin (2 * radians (34797809782039 / 100000000000)) ∧
      Real.sin (2 * radians (34797809782039 / 100000000000)) ≤ -(0.40571 : ℝ) := by
    rw [h2gid, Real.sin_add_two_pi, Real.sin_add_two_pi, Real.sin_neg]
    have h := sin_bounds_of_Icc 0.4196434 0.4196442 _ (by norm_num) hu1 hu2 (by norm_num)
    constructor
    · have hnum : (0.4196442 : ℝ) - 0.4196442 ^ 3 / 6 +
          0.4196442 ^ 4 * (5 / 96) ≤ 0.40895 := by norm_num
      linarith [h.2]
    · have hnum : (0.40571 : ℝ) ≤ 0.4196434 - 0.4196434 ^ 3 / 6 -
          0.4196434 ^ 4 * (5 / 96) := by norm_num
      linarith [h.1]
  -- the ecliptic longitude
  set lam : ℝ := 13566986733081 / 50000000000 +
      1.915 * Real.sin (radians (34797809782039 / 100000000000)) +
      0.020 * Real.sin (2 * radians (34797809782039 / 100000000000)) with hlam
  have hlam1 : (270.9324 : ℝ) ≤ lam := by rw [hlam]; linarith [hsg.1, hs2g.1]
  have hlam2 : lam ≤ 270.9330 := by rw [hlam]; linarith [hsg.2, hs2g.2]
  -- sin lam  (lam = 360 - v with v near 89.067, so sin lam = -cos(radians (lam - 270)))
  have hlamid : radians lam = -radians (360 - lam) + 2 * Real.pi := by
    unfold radians; ring
  have hw0 : 0 ≤ radians (90 - (360 - lam)) := by
    unfold radians; nlinarith
  have hwub : radians (90 - (360 - lam)) ≤ 0.0163 := by
    unfold radians; nlinarith
  have hsl : Real.sin (radians lam) ≤ -0.99986 := by
    rw [hlamid, Real.sin_add_two_pi, Real.sin_neg,
        radians_eq_pi_div_two_sub (360 - lam), Real.sin_pi_div_two_sub]
    have habs : |radians (90 - (360 - lam))| ≤ 0.0163 := by
      rw [abs_of_nonneg hw0]; exact hwub
    have h := cos_bounds_of_abs 0 0.0163 _ le_rfl (abs_nonneg _) habs (by norm_num)
    have hnum : (0.99986 : ℝ) ≤ 1 - 0.0163 ^ 2 / 2 - 0.0163 ^ 4 * (5 / 96) := by norm_num
    linarith [h.1]
  have hsl2 : -1 ≤ Real.sin (radians lam) := Real.neg_one_le_sin _
  set y : ℝ := Real.sin (radians 23.44) * Real.sin (radians lam) with hy
  have hy1 : -(0.39916 : ℝ) ≤ y := by
    rw [hy]; nlinarith [s23_bounds.1, s23_bounds.2, hsl, hsl2]
  have hy2 : y ≤ -(0.39617 : ℝ) := by
    rw [hy]; nlinarith [s23_bounds.1, s23_bounds.2, hsl, hsl2]
  rw [Real.sin_arcsin (by linarith) (by linarith), Real.cos_arcsin]
  have hsq1 : Real.sqrt (1 - y ^ 2) ≤ 1 := Real.sqrt_le_one.mpr (by nlinarith)
  have hsq0 : 0 < Real.sqrt (1 - y ^ 2) := Real.sqrt_pos.mpr (by nlinarith)
  have hD0 : 0 < Real.cos (radians 80) * Real.sqrt (1 - y ^ 2) :=
    mul_pos cos80_bounds.1 hsq0
  rw [gt_iff_lt, lt_div_iff₀ hD0]
  have hDub : Real.cos (radians 80) * Real.sqrt (1 - y ^ 2) ≤ 0.174533 := by
    nlinarith [cos80_bounds.1, cos80_bounds.2, hsq0, hsq1]
  have hprod : Real.sin (radians 80) * y ≤ -((0.98472 : ℝ) * 0.39617) := by
    nlinarith [sin80_lower, hy1, hy2, Real.sin_le_one (radians 80)]
  nlinarith [s833_bounds.1, hprod, hDub, hD0]

/-- C6: `calculate_sunrise_sunset` computes
`cos_hour_angle = (sin(-0.833°) - sin(lat)·sin(dec)) / (cos(lat)·cos(dec))` and,
whenever its magnitude exceeds 1, returns the degenerate state with no times:
polar day when the value is below -1, polar night when it is above 1.  In
particular, at latitude 80°N it returns polar day on the June solstice 2024 and
polar night on the December solstice 2024 (for every longitude). -/
theorem sunrise_sunset_polar_spec :
    (∀ (latitude : ℝ) (date : DateTime),
        sunriseCosHourAngle latitude date =
          (Real.sin (radians (-0.833)) - Real.sin (radians latitude) *
              Real.sin (radians (calculate_solar_declination
                ((calculate_julian_day (atNoon date) : ℚ) : ℝ)))) /
          (Real.cos (radians latitude) *
              Real.cos (radians (calculate_solar_declination
                ((calculate_julian_day (atNoon date) : ℚ) : ℝ))))) ∧
    (∀ (latitude longitude : ℝ) (date : DateTime),
        sunriseCosHourAngle latitude date < -1 →
        calculate_sunrise_sunset latitude longitude date = polarDayResult) ∧
    (∀ (latitude longitude : ℝ) (date : DateTime),
        1 < sunriseCosHourAngle latitude date →
        calculate_sunrise_sunset latitude longitude date = polarNightResult) ∧
    (∀ longitude : ℝ,
        calculate_sunrise_sunset 80 longitude juneSolstice2024 = polarDayResult) ∧
    (∀ longitude : ℝ,
        calculate_sunrise_sunset 80 longitude decemberSolstice2024 =
          polarNightResult) := by
  have hday : ∀ (latitude longitude : ℝ) (date : DateTime),
      sunriseCosHourAngle latitude date < -1 →
      calculate_sunrise_sunset latitude longitude date = polarDayResult := by
    intro latitude longitude date h
    simp only [calculate_sunrise_sunset, sunriseSunsetFromCos]
    rw [if_pos (lt_abs.mpr (Or.inr (by linarith))), if_pos h]
  have hnight : ∀ (latitude longitude : ℝ) (date : DateTime),
      1 < sunriseCosHourAngle latitude date →
      calculate_sunrise_sunset latitude longitude date = polarNightResult := by
    intro latitude longitude date h
    simp only [calculate_sunrise_sunset, sunriseSunsetFromCos]
    rw [if_pos (lt_abs.mpr (Or.inl h)), if_neg (by linarith)]
  exact ⟨fun latitude date => rfl, hday, hnight,
    fun longitude => hday 80 longitude juneSolstice2024 june_cos_hour_angle_lt,
    fun longitude => hnight 80 longitude decemberSolstice2024
      december_cos_hour_angle_gt⟩

/-- Witness for C6: the polar-branch hypotheses are realised at latitude 80°N on
the 2024 solstices, and the claimed results follow from the theorem there. -/
theorem sunrise_sunset_polar_spec_witness :
    sunriseCosHourAngle 80 juneSolstice2024 < -1 ∧
    1 < sunriseCosHourAngle 80 decemberSolstice2024 ∧
    calculate_sunrise_sunset 80 0 juneSolstice2024 = polarDayResult ∧
    calculate_sunrise_sunset 80 0 decemberSolstice2024 = polarNightResult :=
  ⟨june_cos_hour_angle_lt, december_cos_hour_angle_gt,
   sunrise_sunset_polar_spec.2.1 80 0 juneSolstice2024 june_cos_hour_angle_lt,
   sunrise_sunset_polar_spec.2.2.1 80 0 decemberSolstice2024
     december_cos_hour_angle_gt⟩

set_option maxHeartbeats 1600000 in
/-- Certified evaluation: at latitude 83.6962°N, longitude
36.949773959487484°E (= 9237443489871871/250000000000000, chosen so that the
local hour angle is exactly 180°), at 2024-03-20 12:00:00 UTC the unrounded
solar elevation lies in [-5.9994, -5.9958]: strictly above -6° but rounding
to -6.00 at two decimals. -/
theorem equinox_elevation_bounds :
    -(5.9994 : ℝ) ≤ elevationRaw 83.6962 (9237443489871871 / 250000000000000)
        equinox2024 ∧
    elevationRaw 83.6962 (9237443489871871 / 250000000000000) equinox2024 ≤
        -(5.9958 : ℝ) := by
  have hpi1 := Real.pi_gt_d6
  have hpi2 := Real.pi_lt_d6
  have hpi0 := Real.pi_pos
  have hq : calculate_julian_day equinox2024 = 6150976001 / 2500 := by
    norm_num [calculate_julian_day, equinox2024, Int.fdiv]
  have hjd : ((calculate_julian_day equinox2024 : ℚ) : ℝ) = 6150976001 / 2500 := by
    rw [hq]; norm_num
  have hn : (6150976001 / 2500 : ℝ) - 2451545.0 = 22113501 / 2500 := by norm_num
  have hgha : rmod (280.460618 + 360.98564736629 * (22113501 / 2500 : ℝ)) 360 =
      35762556510128129 / 250000000000000 := by
    rw [rmod_eq _ 360 8870 (by norm_num) (by norm_num) (by norm_num)]
    norm_num
  have hr180 : rmod (180 : ℝ) 360 = 180 := by
    rw [rmod_eq _ 360 0 (by norm_num) (by norm_num) (by norm_num)]
    push_cast; norm_num
  have hha : calculate_hour_angle (9237443489871871 / 250000000000000)
      (6150976001 / 2500) = 180 := by
    simp only [calculate_hour_angle]
    rw [hn, hgha]
    have hsum : (35762556510128129 / 250000000000000 : ℝ) +
        9237443489871871 / 250000000000000 = 180 := by norm_num
    rw [hsum, hr180, if_neg (lt_irrefl (180 : ℝ))]
  have hL : rmod (280.460 + 0.9856474 * (22113501 / 2500 : ℝ)) 360 =
      4486323827737 / 12500000000 := by
    rw [rmod_eq _ 360 24 (by norm_num) (by norm_num) (by norm_num)]
    norm_num
  have hg : rmod (357.528 + 0.9856003 * (22113501 / 2500 : ℝ)) 360 =
      1888932196503 / 25000000000 := by
    rw [rmod_eq _ 360 25 (by norm_num) (by norm_num) (by norm_num)]
    norm_num
  simp only [elevationRaw, calculate_solar_declination]
  rw [hjd, hha, hn, hL, hg, radians_degrees]
  have hpi180 : radians (180 : ℝ) = Real.pi := by unfold radians; ring
  rw [hpi180, Real.cos_pi]
  -- sin g = cos(radians(90 - g)), 90 - g = 14.44271213988
  have hgid : radians (1888932196503 / 25000000000 : ℝ) =
      Real.pi / 2 - radians (361067803497 / 25000000000) := by
    unfold radians; ring
  have hw1 : (0.2520728 : ℝ) ≤ radians (361067803497 / 25000000000) := by
    unfold radians; linarith
  have hw2 : radians (361067803497 / 25000000000 : ℝ) ≤ 0.2520730 := by
    unfold radians; linarith
  have hsg : (0.96801 : ℝ) ≤ Real.sin (radians (1888932196503 / 25000000000)) ∧
      Real.sin (radians (1888932196503 / 25000000000)) ≤ 0.96845 := by
    rw [hgid, Real.sin_pi_div_two_sub]
    have habs1 : (0.2520728 : ℝ) ≤ |radians (361067803497 / 25000000000)| := by
      rw [abs_of_nonneg (by linarith)]; exact hw1
    have habs2 : |radians (361067803497 / 25000000000)| ≤ 0.2520730 := by
      rw [abs_of_nonneg (by linarith)]; exact hw2
    have h := cos_bounds_of_abs 0.2520728 0.2520730 _ (by norm_num) habs1 habs2
      (by norm_num)
    constructor
    · have hnum : (0.96801 : ℝ) ≤ 1 - 0.2520730 ^ 2 / 2 - 0.2520730 ^ 4 * (5 / 96) := by
        norm_num
      linarith [h.1]
    · have hnum : (1 : ℝ) - 0.2520728 ^ 2 / 2 + 0.2520728 ^ 4 * (5 / 96) ≤ 0.96845 := by
        norm_num
      linarith [h.2]
  -- sin 2g = sin(radians(180 - 2g)), 180 - 2g = 28.88542427976
  have h2gid : (2 : ℝ) * radians (1888932196503 / 25000000000) =
      Real.pi - radians (722135606994 / 25000000000) := by
    unfold radians; ring
  have hu1 : (0.5041456 : ℝ) ≤ radians (722135606994 / 25000000000) := by
    unfold radians; linarith
  have hu2 : radians (722135606994 / 25000000000 : ℝ) ≤ 0.5041459 := by
    unfold radians; linarith
  have hs2g : (0.47942 : ℝ) ≤ Real.sin (2 * radians (1888932196503 / 25000000000)) ∧
      Real.sin (2 * radians (1888932196503 / 25000000000)) ≤ 0.48616 := by
    rw [h2gid, Real.sin_pi_sub]
    have h := sin_bounds_of_Icc 0.5041456 0.5041459 _ (by norm_num) hu1 hu2 (by norm_num)
    constructor
    · have hnum : (0.47942 : ℝ) ≤ 0.5041456 - 0.5041456 ^ 3 / 6 -
          0.5041456 ^ 4 * (5 / 96) := by norm_num
      linarith [h.1]
    · have hnum : (0.5041459 : ℝ) - 0.5041459 ^ 3 / 6 +
          0.5041459 ^ 4 * (5 / 96) ≤ 0.48616 := by norm_num
      linarith [h.2]
  set lam : ℝ := 4486323827737 / 12500000000 +
      1.915 * Real.sin (radians (1888932196503 / 25000000000)) +
      0.020 * Real.sin (2 * radians (1888932196503 / 25000000000)) with hlam
  have hlam1 : (360.76923 : ℝ) ≤ lam := by rw [hlam]; linarith [hsg.1, hs2g.1]
  have hlam2 : lam ≤ 360.77022 := by rw [hlam]; linarith [hsg.2, hs2g.2]
  have hlamid : radians lam = radians (lam - 360) + 2 * Real.pi := by
    unfold radians; ring
  have hr1 : (0.0134255 : ℝ) ≤ radians (lam - 360) := by unfold radians; nlinarith
  have hr2 : radians (lam - 360) ≤ 0.0134429 := by unfold radians; nlinarith
  have hsl : (0.0134250 : ℝ) ≤ Real.sin (radians lam) ∧
      Real.sin (radians lam) ≤ 0.0134426 := by
    rw [hlamid, Real.sin_add_two_pi]
    have h := sin_bounds_of_Icc 0.0134255 0.0134429 _ (by norm_num) hr1 hr2 (by norm_num)
    constructor
    · have hnum : (0.0134250 : ℝ) ≤ 0.0134255 - 0.0134255 ^ 3 / 6 -
          0.0134255 ^ 4 * (5 / 96) := by norm_num
      linarith [h.1]
    · have hnum : (0.0134429 : ℝ) - 0.0134429 ^ 3 / 6 +
          0.0134429 ^ 4 * (5 / 96) ≤ 0.0134426 := by norm_num
      linarith [h.2]
  set Y : ℝ := Real.sin (radians 23.44) * Real.sin (radians lam) with hY
  have hY1 : (0.0053190 : ℝ) ≤ Y := by
    rw [hY]; nlinarith [s23_bounds.1, s23_bounds.2, hsl.1, hsl.2]
  have hY2 : Y ≤ 0.0053659 := by
    rw [hY]; nlinarith [s23_bounds.1, s23_bounds.2, hsl.1, hsl.2]
  have hδpos : 0 < Real.arcsin Y := Real.arcsin_pos.mpr (by linarith)
  have hδlo : (0.0053190 : ℝ) ≤ Real.arcsin Y := by
    have hslt := Real.sin_lt hδpos
    rw [Real.sin_arcsin (by linarith) (by linarith)] at hslt
    linarith
  have hsB : (0.0053659 : ℝ) ≤ Real.sin 0.0053660 := by
    have h := sin_bounds_of_Icc 0.0053660 0.0053660 0.0053660 (by norm_num) le_rfl
      le_rfl (by norm_num)
    have hnum : (0.0053659 : ℝ) ≤ 0.0053660 - 0.0053660 ^ 3 / 6 -
        0.0053660 ^ 4 * (5 / 96) := by norm_num
    linarith [h.1]
  have hδhi : Real.arcsin Y ≤ 0.0053660 := by
    have hmono : Real.arcsin Y ≤ Real.arcsin (Real.sin 0.0053660) :=
      Real.monotone_arcsin (by linarith)
    rwa [Real.arcsin_sin (by linarith) (by linarith)] at hmono
  have hθ1 : (1.4607739 : ℝ) ≤ radians 83.6962 := by unfold radians; linarith
  have hθ2 : radians (83.6962 : ℝ) ≤ 1.4607745 := by unfold radians; linarith
  have harg : Real.sin (radians 83.6962) * Real.sin (Real.arcsin Y) +
      Real.cos (radians 83.6962) * Real.cos (Real.arcsin Y) * (-1) =
      Real.sin (radians 83.6962 + Real.arcsin Y - Real.pi / 2) := by
    rw [Real.sin_sub_pi_div_two, Real.cos_add]; ring
  rw [harg]
  rw [Real.arcsin_sin (by linarith) (by linarith)]
  have hdeg : degrees (radians 83.6962 + Real.arcsin Y - Real.pi / 2) =
      83.6962 + degrees (Real.arcsin Y) - 90 := by
    have h1 : degrees (radians 83.6962 + Real.arcsin Y - Real.pi / 2) =
        degrees (radians 83.6962) + degrees (Real.arcsin Y) - degrees (Real.pi / 2) := by
      unfold degrees; ring
    rw [h1, degrees_radians, degrees_pi_div_two]
  rw [hdeg]
  have hdd : degrees (Real.arcsin Y) = Real.arcsin Y * 180 / Real.pi := by
    unfold degrees; ring
  have hdd1 : (0.3044 : ℝ) ≤ degrees (Real.arcsin Y) := by
    rw [hdd, le_div_iff₀ hpi0]
    nlinarith [hδlo, hpi2]
  have hdd2 : degrees (Real.arcsin Y) ≤ 0.308 := by
    rw [hdd, div_le_iff₀ hpi0]
    nlinarith [hδhi, hpi1]
  constructor
  · linarith
  · linarith

/-- **C7** (counterexample to the literal claim): at latitude 83.6962°N,
longitude 9237443489871871/250000000000000 ≈ 36.9498°E, at 2024-03-20
12:00:00 UTC, `calculate_sun_position` sets `is_daylight = true` (the
unrounded elevation ≈ -5.9975° exceeds -6°), yet the `elevation` reported *in
that same result* is `round(-5.9975, 2) = -6.00`, which is not greater than
-6: the flag is not a function of the reported elevation. -/
theorem is_daylight_rounded_elevation_counterexample :
    (calculate_sun_position 83.6962 (9237443489871871 / 250000000000000)
        equinox2024).is_daylight = true ∧
    ¬ ((calculate_sun_position 83.6962 (9237443489871871 / 250000000000000)
        equinox2024).elevation > -6) := by
  obtain ⟨h1, h2⟩ := equinox_elevation_bounds
  constructor
  · simp only [calculate_sun_position, decide_eq_true_eq]
    linarith
  · have hfield : (calculate_sun_position 83.6962 (9237443489871871 / 250000000000000)
        equinox2024).elevation =
        round2 (elevationRaw 83.6962 (9237443489871871 / 250000000000000)
          equinox2024) := rfl
    rw [hfield]
    have hfl : ⌊elevationRaw 83.6962 (9237443489871871 / 250000000000000)
        equinox2024 * 100⌋ = -600 := by
      rw [Int.floor_eq_iff]
      constructor
      · push_cast; linarith
      · push_cast; linarith
    have hfr : Int.fract (elevationRaw 83.6962 (9237443489871871 / 250000000000000)
        equinox2024 * 100) < 1 / 2 := by
      simp only [Int.fract]
      rw [hfl]
      push_cast; linarith
    have hval : round2 (elevationRaw 83.6962 (9237443489871871 / 250000000000000)
        equinox2024) = -6 := by
      unfold round2 pyRound
      rw [if_pos hfr, hfl]
      push_cast; norm_num
    rw [hval]
    exact lt_irrefl (-6 : ℝ)
